import Mathlib

/-
Verification of the ClusterSynchro subsystem of clusterpedia
(pkg/synchromanager/clustersynchro/cluster_synchro.go and the storage
interface file).  The Go code is shallowly embedded below: Go maps become
association lists, collaborator calls (discovery manager, storage factory,
resource-synchro factory, negotiator) become environment records of
injected outcomes, and the concurrent pieces (Shutdown, the status
publication channel) become explicit transition systems.
-/

namespace Clusterpedia

/-- Group, version, resource identifying an API resource
(k8s.io/apimachinery schema.GroupVersionResource). -/
structure GroupVersionResource where
  group : String
  version : String
  resource : String
deriving DecidableEq, Repr

abbrev GVR := GroupVersionResource

/-! ### Association-list maps, mirroring Go maps keyed by GVR -/

/-- Lookup of a key in an association list (the Go map read m[k]). -/
def lookupA {α : Type} (m : List (GVR × α)) (g : GVR) : Option α :=
  match m with
  | [] => none
  | (k, v) :: rest => if k = g then some v else lookupA rest g

/-- Insert or replace a key (the Go map write m[k] = v). -/
def insertA {α : Type} (m : List (GVR × α)) (k : GVR) (v : α) : List (GVR × α) :=
  match m with
  | [] => [(k, v)]
  | (k', v') :: rest => if k' = k then (k, v) :: rest else (k', v') :: insertA rest k v

/-- Remove a key (the Go builtin delete(m, k)). -/
def eraseA {α : Type} (m : List (GVR × α)) (k : GVR) : List (GVR × α) :=
  match m with
  | [] => []
  | (k', v') :: rest => if k' = k then eraseA rest k else (k', v') :: eraseA rest k

/-- Keys of the map, in entry order (range over a Go map). -/
def keysA {α : Type} (m : List (GVR × α)) : List GVR :=
  m.map (fun p => p.1)

theorem lookupA_insertA_self {α : Type} (m : List (GVR × α)) (k : GVR) (v : α) :
    lookupA (insertA m k v) k = some v := by
  induction m with
  | nil => simp [insertA, lookupA]
  | cons p rest ih =>
    obtain ⟨k', v'⟩ := p
    by_cases h : k' = k
    · simp [insertA, h, lookupA]
    · simp [insertA, h, lookupA, ih]

theorem lookupA_insertA_ne {α : Type} (m : List (GVR × α)) (k g : GVR) (v : α)
    (h : k ≠ g) : lookupA (insertA m k v) g = lookupA m g := by
  induction m with
  | nil => simp [insertA, lookupA, h]
  | cons p rest ih =>
    obtain ⟨k', v'⟩ := p
    by_cases hk : k' = k
    · subst hk
      simp [insertA, lookupA, h]
    · by_cases hg : k' = g
      · have hgk : ¬ g = k := fun hh => h hh.symm
        simp [insertA, hk, lookupA, hg, hgk]
      · simp [insertA, hk, lookupA, hg, ih]

theorem lookupA_eraseA_self {α : Type} (m : List (GVR × α)) (k : GVR) :
    lookupA (eraseA m k) k = none := by
  induction m with
  | nil => simp [eraseA, lookupA]
  | cons p rest ih =>
    obtain ⟨k', v'⟩ := p
    by_cases h : k' = k
    · simpa [eraseA, h] using ih
    · simp [eraseA, h, lookupA, ih]

theorem lookupA_eraseA_ne {α : Type} (m : List (GVR × α)) (k g : GVR)
    (h : g ≠ k) : lookupA (eraseA m k) g = lookupA m g := by
  induction m with
  | nil => simp [eraseA, lookupA]
  | cons p rest ih =>
    obtain ⟨k', v'⟩ := p
    by_cases hk : k' = k
    · have hkg : ¬ k' = g := by
        intro hh
        apply h
        rw [← hh]
        exact hk
      have hkg2 : ¬ k = g := fun hh => h hh.symm
      simp [eraseA, hk, lookupA, hkg, hkg2, ih]
    · by_cases hg : k' = g
      · have hgk : ¬ g = k := h
        simp [eraseA, hk, hg, lookupA, hgk]
      · simp [eraseA, hk, hg, lookupA, ih]

theorem lookupA_isSome_of_eraseA {α : Type} (m : List (GVR × α)) (k g : GVR)
    (h : (lookupA (eraseA m k) g).isSome) : (lookupA m g).isSome := by
  by_cases hg : g = k
  · subst hg
    rw [lookupA_eraseA_self] at h
    simp at h
  · rwa [lookupA_eraseA_ne m k g hg] at h

theorem lookupA_isSome_iff_mem_keysA {α : Type} (m : List (GVR × α)) (g : GVR) :
    (lookupA m g).isSome ↔ g ∈ keysA m := by
  induction m with
  | nil => simp [lookupA, keysA]
  | cons p rest ih =>
    obtain ⟨k', v'⟩ := p
    by_cases h : k' = g
    · simp [lookupA, keysA, h]
    · have hgk : ¬ g = k' := fun hh => h hh.symm
      simp [lookupA, keysA, h, hgk, ih]

/-! ### Storage layer (the storage interface file)

Go errors are embedded as an inductive type.  The marker type
storageRecoverableExceptionError is a dedicated constructor, so that the
type assertion in IsRecoverableException becomes a constructor test. -/

/-- Go error values relevant to the storage package: a plain error, a
wrapping error (fmt.Errorf with %w), and the recoverable-exception marker
struct which embeds the wrapped error. -/
inductive GoError where
  | base (msg : String)
  | wrap (msg : String) (inner : GoError)
  | storageRecoverableException (inner : GoError)
deriving DecidableEq, Repr

/-- NewRecoverableException wraps an error in the marker struct. -/
def NewRecoverableException (err : GoError) : GoError :=
  GoError.storageRecoverableException err

/-- IsRecoverableException performs the Go type assertion
err.(storageRecoverableExceptionError): true exactly for values whose
outermost form is the marker struct. -/
def IsRecoverableException : GoError → Bool
  | GoError.storageRecoverableException _ => true
  | _ => false

/-- Resource-version watermark submap (Go map keyed by object key,
with an opaque interface value modelled as Nat). -/
abbrev RVMap := List (String × Nat)

/-- ClusterResourceVersions: the two watermark submaps; a Go nil map is
Option.none, a non-nil (possibly empty) map is Option.some. -/
structure ClusterResourceVersions where
  Resources : Option RVMap
  Events : Option RVMap
deriving DecidableEq, Repr

/-! ### Conditions and status constants -/

/-- The empty string, named so it can be passed as an argument. -/
def emptyString : String := ""

/-- Condition of the cluster (metav1.Condition with the transition
timestamp not modelled). -/
structure Condition where
  type : String
  status : String
  reason : String
  message : String
deriving DecidableEq, Repr

/-- Modelled from the spec: status constants of the api package
cluster/v1alpha2 (not part of the sources); only their identity matters. -/
def ResourceSyncStatusPending : String := "Pending"

/-- Modelled from the spec: the Syncing sync status constant. -/
def ResourceSyncStatusSyncing : String := "Syncing"

/-- Modelled from the spec: the Stop sync status constant. -/
def ResourceSyncStatusStop : String := "Stop"

/-- Modelled from the spec: the Unknown sync status constant. -/
def ResourceSyncStatusUnknown : String := "Unknown"

/-- Modelled from the spec: the type of the running condition. -/
def SynchroRunningConditionType : String := "SynchroRunning"

/-- Modelled from the spec: the type of the healthy condition. -/
def ClusterHealthyConditionType : String := "ClusterHealthy"

/-- Modelled from the spec: metav1.ConditionTrue. -/
def ConditionTrue : String := "True"

/-- Modelled from the spec: metav1.ConditionFalse. -/
def ConditionFalse : String := "False"

/-- Modelled from the spec: metav1.ConditionUnknown. -/
def ConditionUnknownStatus : String := "Unknown"

/-- Modelled from the spec: the pending reason of the running condition. -/
def SynchroPendingReason : String := "Pending"

/-- Modelled from the spec: the running reason of the running condition. -/
def SynchroRunningReason : String := "Running"

/-- Modelled from the spec: the shutdown reason of the running condition. -/
def SynchroShutdownReason : String := "SynchroShutdown"

/-- Modelled from the spec: the monitor-stop reason of the healthy
condition. -/
def ClusterMonitorStopReason : String := "MonitorStop"

/-- Reason string used by refreshSyncResources on setup failures. -/
def SynchroCreateFailedReason : String := "SynchroCreateFailed"

/-- Reason string used by refreshSyncResources when a synchro is removed. -/
def SynchroRemovedReason : String := "SynchroRemoved"

/-- Reason string used by refreshSyncResources when cleaning fails. -/
def CleanResourceFailedReason : String := "CleanResourceFailed"

/-! ### Group/Resource status (spec section 4.3; the implementing file is
not among the sources, so these operations are modelled from the spec) -/

/-- Modelled from the spec: a per sync GVR condition; it records the
storage GVR the sync GVR maps to, plus status, reason and message. -/
structure SyncCondition where
  storageGVR : GroupVersionResource
  status : String
  reason : String
  message : String
deriving DecidableEq, Repr

/-- Modelled from the spec: GroupResourceStatus flattened to an
association list from sync GVR to sync condition. -/
abbrev GroupResourceStatus := List (GVR × SyncCondition)

/-- Overwrite status, reason and message of a condition, leaving its
storage GVR. -/
def overrideCondition (status reason message : String) (c : SyncCondition) : SyncCondition :=
  { c with status := status, reason := reason, message := message }

/-- Modelled from the spec: UpdateSyncCondition sets status, reason and
message of the condition of one sync GVR, leaving its storage GVR. -/
def updateSyncCondition (grs : GroupResourceStatus) (gvr : GVR)
    (status reason message : String) : GroupResourceStatus :=
  grs.map (fun p =>
    if p.1 = gvr then (p.1, overrideCondition status reason message p.2) else p)

/-- Modelled from the spec: DeleteVersion removes the entry of a sync GVR. -/
def deleteVersion (grs : GroupResourceStatus) (gvr : GVR) : GroupResourceStatus :=
  eraseA grs gvr

/-- Modelled from the spec: Merge keeps every entry of the fresh status
and carries over entries of the previous status absent from it (they stay
until DeleteVersion removes those reported in the deleted set). -/
def mergeStatus (fresh : GroupResourceStatus) (last : Option GroupResourceStatus) :
    GroupResourceStatus :=
  match last with
  | none => fresh
  | some old => fresh ++ old.filter (fun p => (lookupA fresh p.1).isNone)

/-- Modelled from the spec: the deleted set returned by Merge, the sync
GVRs of the previous status absent from the fresh one. -/
def mergeDeleted (fresh : GroupResourceStatus) (last : Option GroupResourceStatus) :
    List GVR :=
  match last with
  | none => []
  | some old => (keysA old).filter (fun g => (lookupA fresh g).isNone)

/-- Modelled from the spec: GetStorageGVRToSyncGVRs restricted to one
storage GVR, the sync GVRs whose condition maps to it. -/
def storageGVRToSyncGVRs (grs : GroupResourceStatus) (storageGVR : GVR) : List GVR :=
  keysA (grs.filter (fun p => decide (p.2.storageGVR = storageGVR)))

/-! ### Resource synchros and the refresh environment -/

/-- Abstract handle of a per-resource synchro (resourcesynchro.Synchro):
the coordinator observes its identity and its sync GVR. -/
structure ResourceSynchro where
  id : Nat
  syncResource : GroupVersionResource
deriving DecidableEq, Repr

/-- Per storage GVR sync configuration produced by the negotiator
(the fields of the source struct read by refreshSyncResources). -/
structure ResourceSyncConfig where
  syncResource : GroupVersionResource
  kind : String
  syncEvents : Bool
  resourceStorageConfig : Nat
deriving DecidableEq, Repr

/-- Observable side effects of one refreshSyncResources call. -/
inductive RefreshEffect where
  | storageCreated (storageGVR : GroupVersionResource)
  | newStorageFailed (storageGVR : GroupVersionResource)
  | synchroCreated (storageGVR : GroupVersionResource)
  | newSynchroFailed (storageGVR : GroupVersionResource)
  | runStarted (storageGVR : GroupVersionResource)
  | startLaunched (storageGVR : GroupVersionResource)
  | closeInvoked (storageGVR : GroupVersionResource)
  | registryDeleted (storageGVR : GroupVersionResource)
  | condUpdated (gvr : GroupVersionResource) (status : String) (reason : String)
  | cleanInvoked (storageGVR : GroupVersionResource) (ok : Bool)
deriving DecidableEq, Repr

/-- Collaborator outcomes injected into one refresh: the negotiator
(taking the opaque stored syncResources value), the storage factory
constructors, and per-GVR CleanClusterResource results (none is success). -/
structure RefreshEnv where
  negotiate : Nat → GroupResourceStatus × List (GVR × ResourceSyncConfig)
  newResourceStorage : Nat → Except String Nat
  newResourceSynchro : ResourceSyncConfig → Except String ResourceSynchro
  cleanClusterResource : GVR → Option String

/-- State of a ClusterSynchro as read and written by the operations under
verification.  syncResources is the atomically stored desired list (none
is the Go nil slice, the stored value itself is opaque and represented by
a token); groupResourceStatus none is the initial nil pointer. -/
structure SynchroState where
  syncResources : Option Nat
  groupResourceStatus : Option GroupResourceStatus
  storageResourceSynchros : List (GVR × ResourceSynchro)
  storageResourceVersions : List (GVR × ClusterResourceVersions)
  handlerLive : Bool
  closerClosed : Bool
  runningCondition : Condition
  healthyCondition : Condition
deriving DecidableEq, Repr

/-! ### Constructor (New) and initWithResourceVersions -/

/-- Replace nil submaps by fresh empty maps, as the body of the loop in
initWithResourceVersions does. -/
def normalizeRVS (rvs : ClusterResourceVersions) : ClusterResourceVersions :=
  { Resources := some (rvs.Resources.getD []), Events := some (rvs.Events.getD []) }

/-- initWithResourceVersions: build the in-memory watermark map from the
loaded storage state, normalising nil submaps (an empty load leaves the
fresh empty map). -/
def initWithResourceVersions (loaded : List (GVR × ClusterResourceVersions)) :
    List (GVR × ClusterResourceVersions) :=
  if loaded.length = 0 then []
  else loaded.foldl (fun m p => insertA m p.1 (normalizeRVS p.2)) []

/-- Outcomes of the five fallible construction steps of New, in source
order: discovery manager, GetResourceVersions, lister-watcher factory,
health checker, cluster client. -/
structure NewEnv where
  discoveryResult : Except String Nat
  resourceVersionsResult : Except String (List (GVR × ClusterResourceVersions))
  listerWatcherResult : Except String Nat
  healthCheckerResult : Except String Nat
  clientResult : Except String Nat

/-- A constructor error together with the RetryableError marker: the Go
code wraps some errors in the RetryableError named type. -/
structure ConstructionError where
  retryable : Bool
  message : String
deriving DecidableEq, Repr

/-- Whether an Except value is an error. -/
def isErr {ε α : Type} : Except ε α → Bool
  | Except.error _ => true
  | Except.ok _ => false

/-- The running condition stored by New. -/
def newPendingRunningCondition : Condition :=
  { type := SynchroRunningConditionType
    status := ConditionFalse
    reason := SynchroPendingReason
    message := "cluster synchro is created, wait running" }

/-- The healthy condition stored by New. -/
def newHealthyCondition : Condition :=
  { type := ClusterHealthyConditionType
    status := ConditionUnknownStatus
    reason := ClusterMonitorStopReason
    message := "wait cluster synchro healthy monitor running" }

/-- New: the constructor, following the source order of fallible steps;
failures of the first two steps carry the RetryableError marker, the
remaining ones return plain errors.  On success the initial state is
produced, with nil syncResources and nil groupResourceStatus. -/
def new (env : NewEnv) : Except ConstructionError SynchroState :=
  match env.discoveryResult with
  | Except.error e =>
      Except.error { retryable := true
                     message := "failed to create dynamic discovery manager: " ++ e }
  | Except.ok _ =>
  match env.resourceVersionsResult with
  | Except.error e =>
      Except.error { retryable := true
                     message := "failed to get resource versions from storage: " ++ e }
  | Except.ok loaded =>
  match env.listerWatcherResult with
  | Except.error e =>
      Except.error { retryable := false
                     message := "failed to create lister watcher factory: " ++ e }
  | Except.ok _ =>
  match env.healthCheckerResult with
  | Except.error e =>
      Except.error { retryable := false
                     message := "failed to create a cluster health checker: " ++ e }
  | Except.ok _ =>
  match env.clientResult with
  | Except.error e =>
      Except.error { retryable := false
                     message := "failed to create cluster client: " ++ e }
  | Except.ok _ =>
      Except.ok
        { syncResources := none
          groupResourceStatus := none
          storageResourceSynchros := []
          storageResourceVersions := initWithResourceVersions loaded
          handlerLive := false
          closerClosed := false
          runningCondition := newPendingRunningCondition
          healthyCondition := newHealthyCondition }

/-! ### refreshSyncResources -/

/-- Accumulator threading the mutable pieces of refreshSyncResources:
the (stored, in-place updated) group resource status, the synchro
registry, the watermark map, the deleted set returned by Merge, the
effect trace, and whether the closer aborted the removal loop. -/
structure RefreshAcc where
  grs : GroupResourceStatus
  registry : List (GVR × ResourceSynchro)
  rvs : List (GVR × ClusterResourceVersions)
  deleted : List GVR
  trace : List RefreshEffect
  aborted : Bool
deriving Repr

/-- The grs part of the updateSyncConditions closure: update the
condition of every sync GVR fanned out from the storage GVR. -/
def updateSyncConditionsApply (fanned : List GVR) (grs : GroupResourceStatus)
    (status reason message : String) : GroupResourceStatus :=
  fanned.foldl (fun acc gvr => updateSyncCondition acc gvr status reason message) grs

/-- The trace of one updateSyncConditions call. -/
def updateSyncConditionsTrace (fanned : List GVR) (status reason : String) :
    List RefreshEffect :=
  fanned.map (fun gvr => RefreshEffect.condUpdated gvr status reason)

/-- A fresh watermark entry with both submaps made. -/
def emptyRVS : ClusterResourceVersions :=
  { Resources := some [], Events := some [] }

/-- One iteration of the creation loop of refreshSyncResources over a
plan entry: skip storage GVRs already registered; otherwise create the
resource storage (on failure mark Pending/SynchroCreateFailed), ensure a
watermark entry with both submaps, create the synchro (on failure mark
Pending/SynchroCreateFailed), launch Run, register it, clear the
condition to Unknown, and launch Start when the handler channel lives. -/
def createStep (env : RefreshEnv) (fan : GVR → List GVR) (handlerLive : Bool)
    (acc : RefreshAcc) (entry : GVR × ResourceSyncConfig) : RefreshAcc :=
  let storageGVR := entry.1
  let config := entry.2
  if (lookupA acc.registry storageGVR).isSome then acc
  else
    match env.newResourceStorage config.resourceStorageConfig with
    | Except.error _ =>
        { acc with
          grs := updateSyncConditionsApply (fan storageGVR) acc.grs
            ResourceSyncStatusPending SynchroCreateFailedReason emptyString
          trace := acc.trace ++ [RefreshEffect.newStorageFailed storageGVR] ++
            updateSyncConditionsTrace (fan storageGVR)
              ResourceSyncStatusPending SynchroCreateFailedReason }
    | Except.ok _ =>
        let rvs' :=
          if (lookupA acc.rvs storageGVR).isSome then acc.rvs
          else insertA acc.rvs storageGVR emptyRVS
        match env.newResourceSynchro config with
        | Except.error _ =>
            { acc with
              rvs := rvs'
              grs := updateSyncConditionsApply (fan storageGVR) acc.grs
                ResourceSyncStatusPending SynchroCreateFailedReason emptyString
              trace := acc.trace ++
                [RefreshEffect.storageCreated storageGVR,
                 RefreshEffect.newSynchroFailed storageGVR] ++
                updateSyncConditionsTrace (fan storageGVR)
                  ResourceSyncStatusPending SynchroCreateFailedReason }
        | Except.ok synchro =>
            { acc with
              rvs := rvs'
              registry := insertA acc.registry storageGVR synchro
              grs := updateSyncConditionsApply (fan storageGVR) acc.grs
                ResourceSyncStatusUnknown emptyString emptyString
              trace := acc.trace ++
                [RefreshEffect.storageCreated storageGVR,
                 RefreshEffect.synchroCreated storageGVR,
                 RefreshEffect.runStarted storageGVR] ++
                updateSyncConditionsTrace (fan storageGVR)
                  ResourceSyncStatusUnknown emptyString ++
                (if handlerLive then [RefreshEffect.startLaunched storageGVR] else []) }

/-- Message recorded when a synchro is removed by the removal loop. -/
def synchroMovedMessage : String := "the resource synchro is moved"

/-- One iteration of the removal loop of refreshSyncResources: for a
storage GVR still registered, invoke Close, then either abort when the
closer is closed, or (after Close completes) mark every fanned sync GVR
Stop/SynchroRemoved and delete the registry entry. -/
def removeStep (closerClosed : Bool) (fan : GVR → List GVR)
    (acc : RefreshAcc) (storageGVR : GVR) : RefreshAcc :=
  if acc.aborted then acc
  else
    match lookupA acc.registry storageGVR with
    | none => acc
    | some _ =>
        let acc1 := { acc with trace := acc.trace ++ [RefreshEffect.closeInvoked storageGVR] }
        if closerClosed then { acc1 with aborted := true }
        else
          { acc1 with
            grs := updateSyncConditionsApply (fan storageGVR) acc1.grs
              ResourceSyncStatusStop SynchroRemovedReason synchroMovedMessage
            registry := eraseA acc1.registry storageGVR
            trace := acc1.trace ++
              updateSyncConditionsTrace (fan storageGVR)
                ResourceSyncStatusStop SynchroRemovedReason ++
              [RefreshEffect.registryDeleted storageGVR] }

/-- One iteration of the cleanup loop of refreshSyncResources over a
watermark key: skip keys still in the plan; otherwise delete the
watermark entry unconditionally, call CleanClusterResource, and on error
mark every fanned sync GVR Stop/CleanResourceFailed and drop those sync
GVRs from the deleted set so they stay in the status. -/
def cleanStep (env : RefreshEnv) (fan : GVR → List GVR)
    (plan : List (GVR × ResourceSyncConfig))
    (acc : RefreshAcc) (storageGVR : GVR) : RefreshAcc :=
  if (lookupA plan storageGVR).isSome then acc
  else
    let acc1 := { acc with rvs := eraseA acc.rvs storageGVR }
    match env.cleanClusterResource storageGVR with
    | none => { acc1 with trace := acc1.trace ++ [RefreshEffect.cleanInvoked storageGVR true] }
    | some err =>
        { acc1 with
          grs := updateSyncConditionsApply (fan storageGVR) acc1.grs
            ResourceSyncStatusStop CleanResourceFailedReason err
          deleted := acc1.deleted.filter (fun gvr => decide (gvr ∉ fan storageGVR))
          trace := acc1.trace ++ [RefreshEffect.cleanInvoked storageGVR false] ++
            updateSyncConditionsTrace (fan storageGVR)
              ResourceSyncStatusStop CleanResourceFailedReason }

/-- The plan produced by negotiation for a stored syncResources value. -/
def refreshPlan (env : RefreshEnv) (sr : Nat) : List (GVR × ResourceSyncConfig) :=
  (env.negotiate sr).2

/-- The group resource status after Merge with the previous one. -/
def refreshMerged (env : RefreshEnv) (s : SynchroState) (sr : Nat) : GroupResourceStatus :=
  mergeStatus (env.negotiate sr).1 s.groupResourceStatus

/-- The storage-to-sync fan-out mapping, computed once from the merged
status right after it is stored. -/
def refreshFan (env : RefreshEnv) (s : SynchroState) (sr : Nat) : GVR → List GVR :=
  storageGVRToSyncGVRs (refreshMerged env s sr)

/-- The refresh accumulator before the creation loop. -/
def refreshAcc0 (env : RefreshEnv) (s : SynchroState) (sr : Nat) : RefreshAcc :=
  { grs := refreshMerged env s sr
    registry := s.storageResourceSynchros
    rvs := s.storageResourceVersions
    deleted := mergeDeleted (env.negotiate sr).1 s.groupResourceStatus
    trace := []
    aborted := false }

/-- The accumulator after the creation loop over the plan. -/
def refreshAcc1 (env : RefreshEnv) (s : SynchroState) (sr : Nat) : RefreshAcc :=
  (refreshPlan env sr).foldl (createStep env (refreshFan env s sr) s.handlerLive)
    (refreshAcc0 env s sr)

/-- The registered storage GVRs absent from the plan, to be removed. -/
def refreshRemoved (env : RefreshEnv) (s : SynchroState) (sr : Nat) : List GVR :=
  (keysA (refreshAcc1 env s sr).registry).filter
    (fun g => (lookupA (refreshPlan env sr) g).isNone)

/-- The accumulator after the removal loop. -/
def refreshAcc2 (env : RefreshEnv) (s : SynchroState) (sr : Nat) : RefreshAcc :=
  (refreshRemoved env s sr).foldl
    (removeStep s.closerClosed (refreshFan env s sr)) (refreshAcc1 env s sr)

/-- The accumulator after the cleanup loop over the watermark keys. -/
def refreshAcc3 (env : RefreshEnv) (s : SynchroState) (sr : Nat) : RefreshAcc :=
  (keysA (refreshAcc2 env s sr).rvs).foldl
    (cleanStep env (refreshFan env s sr) (refreshPlan env sr)) (refreshAcc2 env s sr)

/-- refreshSyncResources: return at once when syncResources is nil;
otherwise negotiate, merge into the previous group resource status,
compute the fan-out mapping once, run the creation loop over the plan,
the removal loop over registered storage GVRs absent from the plan
(aborting on a closed closer), the cleanup loop over watermark keys, and
finally delete the remaining deleted sync GVRs from the status. -/
def refreshSyncResources (env : RefreshEnv) (s : SynchroState) :
    SynchroState × List RefreshEffect :=
  match s.syncResources with
  | none => (s, [])
  | some sr =>
    let acc2 := refreshAcc2 env s sr
    if acc2.aborted then
      ({ s with
          groupResourceStatus := some acc2.grs
          storageResourceSynchros := acc2.registry
          storageResourceVersions := acc2.rvs }, acc2.trace)
    else
      let acc3 := refreshAcc3 env s sr
      let finalGRS := acc3.deleted.foldl deleteVersion acc3.grs
      ({ s with
          groupResourceStatus := some finalGRS
          storageResourceSynchros := acc3.registry
          storageResourceVersions := acc3.rvs }, acc3.trace)

/-! ### genClusterStatus -/

/-- Runtime status snapshot of a synchro, as returned by its Status
method. -/
structure SynchroRuntimeStatus where
  status : String
  reason : String
  message : String
deriving DecidableEq, Repr

/-- External observations genClusterStatus needs: the discovery server
version and the per-synchro status snapshots. -/
structure StatusEnv where
  serverVersion : String
  synchroStatus : ResourceSynchro → SynchroRuntimeStatus

/-- The status document: version, the running and healthy conditions,
and the optional sync-resource statuses (none when the group resource
status is still the nil pointer). -/
structure ClusterStatus where
  version : String
  conditions : List Condition
  syncResources : Option GroupResourceStatus
deriving Repr

/-- Fallback reason used by genClusterStatus when no synchro exists. -/
def ResourceSynchroNotFoundReason : String := "ResourceSynchroNotFound"

/-- Fallback message used by genClusterStatus when no synchro exists. -/
def resourceSynchroNotFoundMessage : String := "not found resource synchro"

/-- Resolution of one sync condition in genClusterStatus: when the
registry holds a synchro for the storage GVR of the condition, its live
status overrides the condition fields; otherwise empty fields fall back
to Unknown/ResourceSynchroNotFound defaults. -/
def renderSyncCondition (env : StatusEnv)
    (registry : List (GVR × ResourceSynchro))
    (cond : SyncCondition) : SyncCondition :=
  match lookupA registry cond.storageGVR with
  | some synchro =>
      let st := env.synchroStatus synchro
      { cond with status := st.status, reason := st.reason, message := st.message }
  | none =>
      { cond with
        status := if cond.status = emptyString then ResourceSyncStatusUnknown else cond.status
        reason := if cond.reason = emptyString then ResourceSynchroNotFoundReason
          else cond.reason
        message := if cond.message = emptyString then resourceSynchroNotFoundMessage
          else cond.message }

/-- genClusterStatus: always the version plus the running and healthy
conditions; sync resources stay nil while groupResourceStatus is the nil
pointer, else each condition is resolved against the live registry. -/
def genClusterStatus (env : StatusEnv) (s : SynchroState) : ClusterStatus :=
  let base : ClusterStatus :=
    { version := env.serverVersion
      conditions := [s.runningCondition, s.healthyCondition]
      syncResources := none }
  match s.groupResourceStatus with
  | none => base
  | some grs =>
      { base with
        syncResources :=
          some (grs.map (fun p =>
            (p.1, renderSyncCondition env s.storageResourceSynchros p.2))) }

/-! ### Status publication channel (updateStatusCh) -/

/-- Capacity of updateStatusCh, from make(chan struct, 1) in New. -/
def updateStatusChCapacity : Nat := 1

/-- updateStatus: the non-blocking send with a default case; the
notification is dropped when the buffer is full. -/
def sendStatusNotification (buf : List Unit) : List Unit :=
  if buf.length < updateStatusChCapacity then buf ++ [()] else buf

/-- State of the status publication loop: the channel buffer and the
number of UpdateClusterStatus calls made by the consumer goroutine. -/
structure StatusLoopState where
  buf : List Unit
  calls : Nat
  accepted : Nat
deriving DecidableEq, Repr

/-- Interleaved events of the status publication loop: a producer calls
updateStatus, or the consumer goroutine receives one notification and
calls UpdateClusterStatus once. -/
inductive StatusStep where
  | send
  | consume
deriving DecidableEq, Repr

/-- Apply one event: send is the non-blocking updateStatus, consume pops
one pending notification and performs one UpdateClusterStatus call
(no-op while the channel is empty, when the consumer just blocks). -/
def statusStepApply (st : StatusLoopState) : StatusStep → StatusLoopState
  | StatusStep.send =>
      if st.buf.length < updateStatusChCapacity then
        { st with buf := st.buf ++ [()], accepted := st.accepted + 1 }
      else st
  | StatusStep.consume =>
      match st.buf with
      | [] => st
      | _ :: rest => { st with buf := rest, calls := st.calls + 1 }

/-- The initial status loop state: empty channel, no calls yet. -/
def statusLoopInit : StatusLoopState :=
  { buf := [], calls := 0, accepted := 0 }

/-! ### Shutdown and the close/closed lifecycle -/

/-- Effects of one Shutdown call, in the order the source performs them. -/
inductive ShutdownEffect where
  | closedCloser
  | waitedWorkers
  | storedShutdownCondition
  | calledUpdateStatus
  | closedStatusCh
deriving DecidableEq, Repr

/-- Lifecycle state shared between Shutdown, the status consumer
goroutine of Run, and callers: the sync.Once flag, the closer and closed
channels (closed or not), whether the wait group was awaited, the stored
running condition, and the status channel (buffer plus closed flag). -/
structure LifecycleState where
  onceUsed : Bool
  closerClosed : Bool
  waited : Bool
  runningCondition : Condition
  statusChSlot : List Unit
  statusChClosed : Bool
  closedClosed : Bool
deriving DecidableEq, Repr

/-- The terminal running condition stored by Shutdown. -/
def shutdownRunningCondition : Condition :=
  { type := SynchroRunningConditionType
    status := ConditionFalse
    reason := SynchroShutdownReason
    message := "cluster synchro is shutdown" }

/-- The running condition stored by Run. -/
def runRunningCondition : Condition :=
  { type := SynchroRunningConditionType
    status := ConditionTrue
    reason := SynchroRunningReason
    message := "cluster synchro is running" }

/-- The body of Shutdown up to the final wait on the closed channel: the
closeOnce guard makes every call after the first a no-op; the first call
closes the closer, waits for the wait group, stores the terminal running
condition, optionally enqueues one status notification, and closes the
status channel.  The effect list records what the call performed. -/
def shutdownBody (updateStatus : Bool) (s : LifecycleState) :
    LifecycleState × List ShutdownEffect :=
  if s.onceUsed then (s, [])
  else
    let s1 := { s with onceUsed := true, closerClosed := true }
    let s2 := { s1 with waited := true }
    let s3 := { s2 with runningCondition := shutdownRunningCondition }
    let s4 :=
      if updateStatus then { s3 with statusChSlot := sendStatusNotification s3.statusChSlot }
      else s3
    let s5 := { s4 with statusChClosed := true }
    (s5,
      [ShutdownEffect.closedCloser, ShutdownEffect.waitedWorkers,
       ShutdownEffect.storedShutdownCondition] ++
      (if updateStatus then [ShutdownEffect.calledUpdateStatus] else []) ++
      [ShutdownEffect.closedStatusCh])

/-- N sequential Shutdown calls (their bodies), with concatenated
effects. -/
def shutdownTimes : Nat → Bool → LifecycleState → LifecycleState × List ShutdownEffect
  | 0, _, s => (s, [])
  | n + 1, u, s =>
      let first := shutdownBody u s
      let rest := shutdownTimes n u first.1
      (rest.1, first.2 ++ rest.2)

/-- Interleaved events of the lifecycle: a Shutdown call, the status
consumer of Run receiving one notification, and the status consumer
observing the closed drained channel and closing the closed channel
(deferred close in the goroutine started by Run). -/
inductive LifeStep where
  | shutdownCall (updateStatus : Bool)
  | consumeStatus
  | finishConsumer
deriving DecidableEq, Repr

/-- Apply one lifecycle event. -/
def lifeApply (s : LifecycleState) : LifeStep → LifecycleState
  | LifeStep.shutdownCall u => (shutdownBody u s).1
  | LifeStep.consumeStatus =>
      match s.statusChSlot with
      | [] => s
      | _ :: rest => { s with statusChSlot := rest }
  | LifeStep.finishConsumer =>
      if s.statusChClosed && s.statusChSlot.isEmpty then
        { s with closedClosed := true }
      else s

/-- The lifecycle state right after Run stored the running condition and
started the status consumer. -/
def lifeInit : LifecycleState :=
  { onceUsed := false
    closerClosed := false
    waited := false
    runningCondition := runRunningCondition
    statusChSlot := []
    statusChClosed := false
    closedClosed := false }

/-- The completion property a Shutdown caller waits on: every Shutdown
call returns by receiving on the closed channel, so it returns only in a
state whose closedClosed flag is set. -/
def shutdownReturnObservable (s : LifecycleState) : Prop :=
  s.closedClosed = true

/-- The work of the first Shutdown call has completed: the once flag is
consumed, the closer closed, the workers awaited, the terminal running
condition stored and the status channel closed. -/
def firstShutdownWorkDone (s : LifecycleState) : Prop :=
  s.onceUsed = true ∧ s.closerClosed = true ∧ s.waited = true ∧
    s.runningCondition = shutdownRunningCondition ∧ s.statusChClosed = true

/-! ### Lemmas about condition updates -/

theorem lookupA_updateSyncCondition (grs : GroupResourceStatus) (gvr g : GVR)
    (st rs msg : String) :
    lookupA (updateSyncCondition grs gvr st rs msg) g =
      if g = gvr then (lookupA grs g).map (overrideCondition st rs msg)
      else lookupA grs g := by
  induction grs with
  | nil => simp [updateSyncCondition, lookupA]
  | cons p rest ih =>
    obtain ⟨k, c⟩ := p
    simp only [updateSyncCondition, List.map_cons] at ih ⊢
    by_cases hk : k = gvr
    · rw [if_pos hk]
      by_cases hg : k = g
      · have hggvr : g = gvr := hg.symm.trans hk
        simp [lookupA, hg, hggvr]
      · simp [lookupA, hg, ih]
    · rw [if_neg hk]
      by_cases hg : k = g
      · have hggvr : ¬ g = gvr := fun hh => hk (hg.symm ▸ hh)
        simp [lookupA, hg, hggvr]
      · simp [lookupA, hg, ih]

theorem overrideCondition_idem (st rs msg : String) (c : SyncCondition) :
    overrideCondition st rs msg (overrideCondition st rs msg c) =
      overrideCondition st rs msg c := rfl

theorem lookupA_updateSyncConditionsApply (fanned : List GVR)
    (grs : GroupResourceStatus) (st rs msg : String) (g : GVR) :
    lookupA (updateSyncConditionsApply fanned grs st rs msg) g =
      if g ∈ fanned then (lookupA grs g).map (overrideCondition st rs msg)
      else lookupA grs g := by
  induction fanned generalizing grs with
  | nil => simp [updateSyncConditionsApply]
  | cons f t ih =>
    have step : updateSyncConditionsApply (f :: t) grs st rs msg =
        updateSyncConditionsApply t (updateSyncCondition grs f st rs msg) st rs msg := rfl
    have hcomp : overrideCondition st rs msg ∘ overrideCondition st rs msg =
        overrideCondition st rs msg := funext fun c => rfl
    rw [step, ih, lookupA_updateSyncCondition]
    by_cases hg : g = f
    · by_cases ht : g ∈ t
      · simp [hg, ht, Option.map_map, hcomp]
      · simp [hg, ht, Option.map_map, hcomp]
    · by_cases ht : g ∈ t
      · simp [hg, ht, Option.map_map, hcomp]
      · simp [hg, ht, Option.map_map, hcomp]

/-- Effects of the creation loop concerning one storage GVR. -/
def creationEffectFor (g : GVR) : RefreshEffect → Bool
  | RefreshEffect.storageCreated h => decide (h = g)
  | RefreshEffect.newStorageFailed h => decide (h = g)
  | RefreshEffect.synchroCreated h => decide (h = g)
  | RefreshEffect.newSynchroFailed h => decide (h = g)
  | RefreshEffect.runStarted h => decide (h = g)
  | RefreshEffect.startLaunched h => decide (h = g)
  | RefreshEffect.closeInvoked _ => false
  | RefreshEffect.registryDeleted _ => false
  | RefreshEffect.condUpdated _ _ _ => false
  | RefreshEffect.cleanInvoked _ _ => false

theorem filter_creationEffectFor_condTrace (g : GVR) (fanned : List GVR) (st rs : String) :
    (updateSyncConditionsTrace fanned st rs).filter (creationEffectFor g) = [] := by
  induction fanned with
  | nil => rfl
  | cons f t ih =>
    simp only [updateSyncConditionsTrace, List.map_cons, List.filter, creationEffectFor]
    exact ih

/-! ### Lemmas about the creation loop -/

theorem createStep_registered (env : RefreshEnv) (fan : GVR → List GVR) (hl : Bool)
    (acc : RefreshAcc) (entry : GVR × ResourceSyncConfig)
    (h : (lookupA acc.registry entry.1).isSome = true) :
    createStep env fan hl acc entry = acc := by
  simp [createStep, h]

theorem createStep_preserves_registered (env : RefreshEnv) (fan : GVR → List GVR)
    (hl : Bool) (acc : RefreshAcc) (entry : GVR × ResourceSyncConfig) (g : GVR)
    (h : (lookupA acc.registry g).isSome = true) :
    lookupA (createStep env fan hl acc entry).registry g = lookupA acc.registry g ∧
    (createStep env fan hl acc entry).trace.filter (creationEffectFor g) =
      acc.trace.filter (creationEffectFor g) := by
  by_cases he : (lookupA acc.registry entry.1).isSome = true
  · rw [createStep_registered env fan hl acc entry he]
    exact ⟨rfl, rfl⟩
  · have hne : ¬ entry.1 = g := fun hh => he (hh ▸ h)
    have hfe : creationEffectFor g (RefreshEffect.storageCreated entry.1) = false := by
      simp [creationEffectFor, hne]
    simp only [createStep, if_neg he]
    cases hs : env.newResourceStorage entry.2.resourceStorageConfig with
    | error e =>
        refine ⟨rfl, ?_⟩
        simp [List.filter_append, creationEffectFor, hne,
          filter_creationEffectFor_condTrace]
    | ok n =>
        cases hc : env.newResourceSynchro entry.2 with
        | error e =>
            refine ⟨rfl, ?_⟩
            simp [List.filter_append, creationEffectFor, hne,
              filter_creationEffectFor_condTrace]
        | ok syn =>
            refine ⟨lookupA_insertA_ne acc.registry entry.1 g syn hne, ?_⟩
            cases hl <;>
              simp [List.filter_append, creationEffectFor, hne,
                filter_creationEffectFor_condTrace]

theorem createFold_preserves_registered (env : RefreshEnv) (fan : GVR → List GVR)
    (hl : Bool) (plan : List (GVR × ResourceSyncConfig)) (acc : RefreshAcc) (g : GVR)
    (h : (lookupA acc.registry g).isSome = true) :
    lookupA (plan.foldl (createStep env fan hl) acc).registry g = lookupA acc.registry g ∧
    (plan.foldl (createStep env fan hl) acc).trace.filter (creationEffectFor g) =
      acc.trace.filter (creationEffectFor g) := by
  induction plan generalizing acc with
  | nil => exact ⟨rfl, rfl⟩
  | cons e t ih =>
    have hstep := createStep_preserves_registered env fan hl acc e g h
    have h2 : (lookupA (createStep env fan hl acc e).registry g).isSome = true := by
      rw [hstep.1]
      exact h
    have hres := ih (createStep env fan hl acc e) h2
    exact ⟨hres.1.trans hstep.1, hres.2.trans hstep.2⟩

/-- The watermark and registry coverage invariant threaded through the
loops of refreshSyncResources. -/
def accInvariant (acc : RefreshAcc) : Prop :=
  (∀ g rvs, lookupA acc.rvs g = some rvs → rvs.Resources ≠ none ∧ rvs.Events ≠ none) ∧
  (∀ g, (lookupA acc.registry g).isSome = true → (lookupA acc.rvs g).isSome = true)

theorem insertA_preserves_wf (m : List (GVR × ClusterResourceVersions)) (k : GVR)
    (v : ClusterResourceVersions)
    (hwf : ∀ g rvs, lookupA m g = some rvs → rvs.Resources ≠ none ∧ rvs.Events ≠ none)
    (hv : v.Resources ≠ none ∧ v.Events ≠ none) :
    ∀ g rvs, lookupA (insertA m k v) g = some rvs →
      rvs.Resources ≠ none ∧ rvs.Events ≠ none := by
  intro g rvs hlu
  by_cases hg : k = g
  · rw [hg] at hlu
    rw [lookupA_insertA_self] at hlu
    cases hlu
    exact hv
  · rw [lookupA_insertA_ne m k g v hg] at hlu
    exact hwf g rvs hlu

theorem createStep_accInvariant (env : RefreshEnv) (fan : GVR → List GVR) (hl : Bool)
    (acc : RefreshAcc) (entry : GVR × ResourceSyncConfig)
    (h : accInvariant acc) : accInvariant (createStep env fan hl acc entry) := by
  by_cases he : (lookupA acc.registry entry.1).isSome = true
  · rw [createStep_registered env fan hl acc entry he]
    exact h
  · have hrvs' :
        (∀ g rvs, lookupA (if (lookupA acc.rvs entry.1).isSome then acc.rvs
            else insertA acc.rvs entry.1 emptyRVS) g = some rvs →
          rvs.Resources ≠ none ∧ rvs.Events ≠ none) ∧
        (∀ g, (lookupA acc.rvs g).isSome = true →
          (lookupA (if (lookupA acc.rvs entry.1).isSome then acc.rvs
            else insertA acc.rvs entry.1 emptyRVS) g).isSome = true) ∧
        (lookupA (if (lookupA acc.rvs entry.1).isSome then acc.rvs
            else insertA acc.rvs entry.1 emptyRVS) entry.1).isSome = true := by
      by_cases hrv : (lookupA acc.rvs entry.1).isSome = true
      · rw [if_pos hrv]
        exact ⟨h.1, fun g hg => hg, hrv⟩
      · rw [if_neg hrv]
        refine ⟨insertA_preserves_wf acc.rvs entry.1 emptyRVS h.1 (by simp [emptyRVS]), ?_, ?_⟩
        · intro g hg
          by_cases hge : entry.1 = g
          · rw [← hge, lookupA_insertA_self]
            rfl
          · rw [lookupA_insertA_ne acc.rvs entry.1 g emptyRVS hge]
            exact hg
        · rw [lookupA_insertA_self]
          rfl
    simp only [createStep, if_neg he]
    cases hs : env.newResourceStorage entry.2.resourceStorageConfig with
    | error e => exact h
    | ok n =>
        cases hc : env.newResourceSynchro entry.2 with
        | error e => exact ⟨hrvs'.1, fun g hg => hrvs'.2.1 g (h.2 g hg)⟩
        | ok syn =>
            refine ⟨hrvs'.1, ?_⟩
            intro g hg
            by_cases hge : entry.1 = g
            · rw [← hge]
              exact hrvs'.2.2
            · rw [lookupA_insertA_ne acc.registry entry.1 g syn hge] at hg
              exact hrvs'.2.1 g (h.2 g hg)

theorem createFold_accInvariant (env : RefreshEnv) (fan : GVR → List GVR) (hl : Bool)
    (plan : List (GVR × ResourceSyncConfig)) (acc : RefreshAcc)
    (h : accInvariant acc) :
    accInvariant (plan.foldl (createStep env fan hl) acc) :=
  List.foldlRecOn plan (createStep env fan hl) acc h
    (fun b hb e _ => createStep_accInvariant env fan hl b e hb)

/-! ### Lemmas about the removal loop -/

theorem lookupA_eraseA_none {α : Type} (m : List (GVR × α)) (k g : GVR)
    (h : lookupA m g = none) : lookupA (eraseA m k) g = none := by
  by_cases hg : g = k
  · rw [hg]
    exact lookupA_eraseA_self m k
  · rw [lookupA_eraseA_ne m k g hg]
    exact h

theorem removeStep_aborted_noop (c : Bool) (fan : GVR → List GVR) (acc : RefreshAcc)
    (g : GVR) (h : acc.aborted = true) : removeStep c fan acc g = acc := by
  simp [removeStep, h]

theorem removeFold_aborted_noop (c : Bool) (fan : GVR → List GVR) (R : List GVR)
    (acc : RefreshAcc) (h : acc.aborted = true) :
    R.foldl (removeStep c fan) acc = acc := by
  induction R with
  | nil => rfl
  | cons g t ih =>
    show t.foldl (removeStep c fan) (removeStep c fan acc g) = acc
    rw [removeStep_aborted_noop c fan acc g h]
    exact ih

theorem removeStep_rvs_deleted (c : Bool) (fan : GVR → List GVR) (acc : RefreshAcc)
    (g : GVR) :
    (removeStep c fan acc g).rvs = acc.rvs ∧
    (removeStep c fan acc g).deleted = acc.deleted := by
  by_cases h : acc.aborted = true
  · rw [removeStep_aborted_noop c fan acc g h]
    exact ⟨rfl, rfl⟩
  · simp only [removeStep, if_neg h]
    cases hl : lookupA acc.registry g with
    | none => exact ⟨rfl, rfl⟩
    | some syn => cases c <;> simp

theorem removeStep_registry_none (c : Bool) (fan : GVR → List GVR) (acc : RefreshAcc)
    (g g' : GVR) (h : lookupA acc.registry g' = none) :
    lookupA (removeStep c fan acc g).registry g' = none := by
  by_cases ha : acc.aborted = true
  · rw [removeStep_aborted_noop c fan acc g ha]
    exact h
  · simp only [removeStep, if_neg ha]
    cases hl : lookupA acc.registry g with
    | none => exact h
    | some syn =>
        cases c with
        | true => exact h
        | false =>
            simp only [Bool.false_eq_true, if_false]
            exact lookupA_eraseA_none acc.registry g g' h

theorem removeStep_registry_isSome (c : Bool) (fan : GVR → List GVR) (acc : RefreshAcc)
    (g g' : GVR) (h : (lookupA (removeStep c fan acc g).registry g').isSome = true) :
    (lookupA acc.registry g').isSome = true := by
  by_cases hn : lookupA acc.registry g' = none
  · rw [removeStep_registry_none c fan acc g g' hn] at h
    simp at h
  · cases hx : lookupA acc.registry g' with
    | none => exact absurd hx hn
    | some v => rfl

theorem removeStep_aborted_false (fan : GVR → List GVR) (acc : RefreshAcc) (g : GVR)
    (h : acc.aborted = false) : (removeStep false fan acc g).aborted = false := by
  simp only [removeStep, h, Bool.false_eq_true, if_false]
  cases hl : lookupA acc.registry g with
  | none => exact h
  | some syn => simp

theorem removeFold_registry_none (c : Bool) (fan : GVR → List GVR) (R : List GVR)
    (acc : RefreshAcc) (g' : GVR) (h : lookupA acc.registry g' = none) :
    lookupA (R.foldl (removeStep c fan) acc).registry g' = none := by
  induction R generalizing acc with
  | nil => exact h
  | cons g t ih =>
    exact ih (removeStep c fan acc g) (removeStep_registry_none c fan acc g g' h)

theorem removeFold_rvs_deleted (c : Bool) (fan : GVR → List GVR) (R : List GVR)
    (acc : RefreshAcc) :
    (R.foldl (removeStep c fan) acc).rvs = acc.rvs ∧
    (R.foldl (removeStep c fan) acc).deleted = acc.deleted := by
  induction R generalizing acc with
  | nil => exact ⟨rfl, rfl⟩
  | cons g t ih =>
    have hs := removeStep_rvs_deleted c fan acc g
    have ht := ih (removeStep c fan acc g)
    exact ⟨ht.1.trans hs.1, ht.2.trans hs.2⟩

theorem removeFold_registry_isSome (c : Bool) (fan : GVR → List GVR) (R : List GVR)
    (acc : RefreshAcc) (g' : GVR)
    (h : (lookupA (R.foldl (removeStep c fan) acc).registry g').isSome = true) :
    (lookupA acc.registry g').isSome = true := by
  induction R generalizing acc with
  | nil => exact h
  | cons g t ih =>
    exact removeStep_registry_isSome c fan acc g g' (ih (removeStep c fan acc g) h)

theorem removeFold_erased_or_aborted (c : Bool) (fan : GVR → List GVR) (R : List GVR)
    (acc : RefreshAcc) :
    (R.foldl (removeStep c fan) acc).aborted = true ∨
    (∀ g ∈ R, lookupA (R.foldl (removeStep c fan) acc).registry g = none) := by
  induction R generalizing acc with
  | nil => exact Or.inr (fun g hg => absurd hg (List.not_mem_nil g))
  | cons g t ih =>
    by_cases ha : acc.aborted = true
    · rw [removeFold_aborted_noop c fan (g :: t) acc ha]
      exact Or.inl ha
    · show (t.foldl (removeStep c fan) (removeStep c fan acc g)).aborted = true ∨ _
      cases hl : lookupA acc.registry g with
      | none =>
          rcases ih (removeStep c fan acc g) with habt | herased
          · exact Or.inl habt
          · refine Or.inr ?_
            intro g' hg'
            rcases List.mem_cons.mp hg' with hg' | hg'
            · subst hg'
              exact removeFold_registry_none c fan t (removeStep c fan acc g') g'
                (removeStep_registry_none c fan acc g' g' hl)
            · exact herased g' hg'
      | some syn =>
          cases c with
          | true =>
              have hstep : (removeStep true fan acc g).aborted = true := by
                simp [removeStep, ha, hl]
              rw [removeFold_aborted_noop true fan t (removeStep true fan acc g) hstep]
              exact Or.inl hstep
          | false =>
              have hnone : lookupA (removeStep false fan acc g).registry g = none := by
                simp only [removeStep, ha, Bool.false_eq_true, if_false, hl]
                exact lookupA_eraseA_self _ g
              rcases ih (removeStep false fan acc g) with habt | herased
              · exact Or.inl habt
              · refine Or.inr ?_
                intro g' hg'
                rcases List.mem_cons.mp hg' with hg' | hg'
                · subst hg'
                  exact removeFold_registry_none false fan t (removeStep false fan acc g') g' hnone
                · exact herased g' hg'

theorem removeFold_aborted_false (fan : GVR → List GVR) (R : List GVR)
    (acc : RefreshAcc) (h : acc.aborted = false) :
    (R.foldl (removeStep false fan) acc).aborted = false := by
  induction R generalizing acc with
  | nil => exact h
  | cons g t ih =>
    exact ih (removeStep false fan acc g) (removeStep_aborted_false fan acc g h)

/-- The effect segment one removal-loop iteration appends for a removed
storage GVR: Close first, then the fanned condition updates, then the
registry deletion. -/
def removalSegment (fan : GVR → List GVR) (g : GVR) : List RefreshEffect :=
  RefreshEffect.closeInvoked g ::
    (updateSyncConditionsTrace (fan g) ResourceSyncStatusStop SynchroRemovedReason ++
      [RefreshEffect.registryDeleted g])

theorem removeStep_full (fan : GVR → List GVR) (acc : RefreshAcc) (g : GVR)
    (hab : acc.aborted = false) (syn : ResourceSynchro)
    (hl : lookupA acc.registry g = some syn) :
    removeStep false fan acc g =
      { acc with
        grs := updateSyncConditionsApply (fan g) acc.grs ResourceSyncStatusStop
          SynchroRemovedReason synchroMovedMessage
        registry := eraseA acc.registry g
        trace := acc.trace ++ removalSegment fan g } := by
  simp [removeStep, hab, hl, removalSegment]

theorem removeStep_abort (fan : GVR → List GVR) (acc : RefreshAcc) (g : GVR)
    (hab : acc.aborted = false) (syn : ResourceSynchro)
    (hl : lookupA acc.registry g = some syn) :
    removeStep true fan acc g =
      { acc with
        trace := acc.trace ++ [RefreshEffect.closeInvoked g]
        aborted := true } := by
  simp [removeStep, hab, hl]

theorem removeFold_trace (fan : GVR → List GVR) (R : List GVR) (acc : RefreshAcc)
    (hnd : R.Nodup) (hab : acc.aborted = false)
    (hpres : ∀ g ∈ R, (lookupA acc.registry g).isSome = true) :
    (R.foldl (removeStep false fan) acc).trace =
      acc.trace ++ (R.map (removalSegment fan)).flatten := by
  induction R generalizing acc with
  | nil => simp
  | cons g t ih =>
    obtain ⟨syn, hl⟩ := Option.isSome_iff_exists.mp (hpres g (List.mem_cons_self g t))
    have hstep := removeStep_full fan acc g hab syn hl
    show (t.foldl (removeStep false fan) (removeStep false fan acc g)).trace = _
    rw [hstep]
    have hnd' := List.nodup_cons.mp hnd
    have hih := ih
      { acc with
        grs := updateSyncConditionsApply (fan g) acc.grs ResourceSyncStatusStop
          SynchroRemovedReason synchroMovedMessage
        registry := eraseA acc.registry g
        trace := acc.trace ++ removalSegment fan g }
      hnd'.2 hab ?_
    · rw [hih]
      simp [List.append_assoc]
    · intro g' hg'
      have hne : ¬ g' = g := fun hh => hnd'.1 (hh ▸ hg')
      show (lookupA (eraseA acc.registry g) g').isSome = true
      rw [lookupA_eraseA_ne acc.registry g g' hne]
      exact hpres g' (List.mem_cons_of_mem g hg')

/-! ### Lemmas about the cleanup loop -/

theorem lookupA_eraseA_some {α : Type} (m : List (GVR × α)) (k g : GVR) (v : α)
    (h : lookupA (eraseA m k) g = some v) : lookupA m g = some v := by
  by_cases hg : g = k
  · rw [hg, lookupA_eraseA_self] at h
    cases h
  · rwa [lookupA_eraseA_ne m k g hg] at h

theorem cleanStep_registry (env : RefreshEnv) (fan : GVR → List GVR)
    (plan : List (GVR × ResourceSyncConfig)) (acc : RefreshAcc) (g : GVR) :
    (cleanStep env fan plan acc g).registry = acc.registry ∧
    (cleanStep env fan plan acc g).aborted = acc.aborted := by
  by_cases hp : (lookupA plan g).isSome = true
  · simp [cleanStep, hp]
  · simp only [cleanStep, if_neg hp]
    cases hc : env.cleanClusterResource g <;> simp

theorem cleanStep_rvs_planPresent (env : RefreshEnv) (fan : GVR → List GVR)
    (plan : List (GVR × ResourceSyncConfig)) (acc : RefreshAcc) (g g' : GVR)
    (h : (lookupA plan g').isSome = true) :
    lookupA (cleanStep env fan plan acc g).rvs g' = lookupA acc.rvs g' := by
  by_cases hp : (lookupA plan g).isSome = true
  · simp [cleanStep, hp]
  · have hne : ¬ g' = g := fun hh => hp (hh ▸ h)
    simp only [cleanStep, if_neg hp]
    cases hc : env.cleanClusterResource g <;>
      simpa using lookupA_eraseA_ne acc.rvs g g' hne

theorem cleanStep_rvs_none (env : RefreshEnv) (fan : GVR → List GVR)
    (plan : List (GVR × ResourceSyncConfig)) (acc : RefreshAcc) (g g' : GVR)
    (h : lookupA acc.rvs g' = none) :
    lookupA (cleanStep env fan plan acc g).rvs g' = none := by
  by_cases hp : (lookupA plan g).isSome = true
  · simpa [cleanStep, hp] using h
  · simp only [cleanStep, if_neg hp]
    cases hc : env.cleanClusterResource g <;>
      simpa using lookupA_eraseA_none acc.rvs g g' h

theorem cleanStep_erases_target (env : RefreshEnv) (fan : GVR → List GVR)
    (plan : List (GVR × ResourceSyncConfig)) (acc : RefreshAcc) (g : GVR)
    (h : lookupA plan g = none) :
    lookupA (cleanStep env fan plan acc g).rvs g = none := by
  have hp : ¬ (lookupA plan g).isSome = true := by simp [h]
  simp only [cleanStep, if_neg hp]
  cases hc : env.cleanClusterResource g <;>
    simpa using lookupA_eraseA_self acc.rvs g

theorem cleanStep_rvs_wf (env : RefreshEnv) (fan : GVR → List GVR)
    (plan : List (GVR × ResourceSyncConfig)) (acc : RefreshAcc) (g : GVR)
    (h : ∀ g' rvs, lookupA acc.rvs g' = some rvs →
      rvs.Resources ≠ none ∧ rvs.Events ≠ none) :
    ∀ g' rvs, lookupA (cleanStep env fan plan acc g).rvs g' = some rvs →
      rvs.Resources ≠ none ∧ rvs.Events ≠ none := by
  intro g' rvs hlu
  by_cases hp : (lookupA plan g).isSome = true
  · simp only [cleanStep, hp, if_true] at hlu
    exact h g' rvs hlu
  · simp only [cleanStep, if_neg hp] at hlu
    cases hc : env.cleanClusterResource g <;> rw [hc] at hlu <;>
      exact h g' rvs (lookupA_eraseA_some acc.rvs g g' rvs (by simpa using hlu))

theorem cleanStep_deleted_mono (env : RefreshEnv) (fan : GVR → List GVR)
    (plan : List (GVR × ResourceSyncConfig)) (acc : RefreshAcc) (g : GVR)
    (gvr : GVR) (h : gvr ∉ acc.deleted) :
    gvr ∉ (cleanStep env fan plan acc g).deleted := by
  by_cases hp : (lookupA plan g).isSome = true
  · simpa [cleanStep, hp] using h
  · simp only [cleanStep, if_neg hp]
    cases hc : env.cleanClusterResource g with
    | none => simpa using h
    | some err =>
        simp only
        intro hmem
        exact h (List.mem_of_mem_filter hmem)

theorem cleanStep_trace_mono (env : RefreshEnv) (fan : GVR → List GVR)
    (plan : List (GVR × ResourceSyncConfig)) (acc : RefreshAcc) (g : GVR)
    (e : RefreshEffect) (h : e ∈ acc.trace) :
    e ∈ (cleanStep env fan plan acc g).trace := by
  by_cases hp : (lookupA plan g).isSome = true
  · simpa [cleanStep, hp] using h
  · simp only [cleanStep, if_neg hp]
    cases hc : env.cleanClusterResource g <;> simp [h]

/-- The cleanup behaviour on success: only the watermark entry is
deleted and the successful clean is recorded; status and deleted set are
untouched. -/
theorem cleanStep_success (env : RefreshEnv) (fan : GVR → List GVR)
    (plan : List (GVR × ResourceSyncConfig)) (acc : RefreshAcc) (g : GVR)
    (hp : lookupA plan g = none) (hc : env.cleanClusterResource g = none) :
    cleanStep env fan plan acc g =
      { acc with
        rvs := eraseA acc.rvs g
        trace := acc.trace ++ [RefreshEffect.cleanInvoked g true] } := by
  have hp' : ¬ (lookupA plan g).isSome = true := by simp [hp]
  simp [cleanStep, hp', hc]

/-- The cleanup behaviour on failure: the watermark entry is deleted all
the same, every fanned sync GVR is marked Stop/CleanResourceFailed, and
the fanned sync GVRs are dropped from the deleted set. -/
theorem cleanStep_failure (env : RefreshEnv) (fan : GVR → List GVR)
    (plan : List (GVR × ResourceSyncConfig)) (acc : RefreshAcc) (g : GVR)
    (err : String) (hp : lookupA plan g = none)
    (hc : env.cleanClusterResource g = some err) :
    cleanStep env fan plan acc g =
      { acc with
        rvs := eraseA acc.rvs g
        grs := updateSyncConditionsApply (fan g) acc.grs ResourceSyncStatusStop
          CleanResourceFailedReason err
        deleted := acc.deleted.filter (fun gvr => decide (gvr ∉ fan g))
        trace := acc.trace ++ [RefreshEffect.cleanInvoked g false] ++
          updateSyncConditionsTrace (fan g) ResourceSyncStatusStop
            CleanResourceFailedReason } := by
  have hp' : ¬ (lookupA plan g).isSome = true := by simp [hp]
  simp [cleanStep, hp', hc]

theorem cleanFold_registry (env : RefreshEnv) (fan : GVR → List GVR)
    (plan : List (GVR × ResourceSyncConfig)) (W : List GVR) (acc : RefreshAcc) :
    (W.foldl (cleanStep env fan plan) acc).registry = acc.registry ∧
    (W.foldl (cleanStep env fan plan) acc).aborted = acc.aborted := by
  induction W generalizing acc with
  | nil => exact ⟨rfl, rfl⟩
  | cons g t ih =>
    have hs := cleanStep_registry env fan plan acc g
    have ht := ih (cleanStep env fan plan acc g)
    exact ⟨ht.1.trans hs.1, ht.2.trans hs.2⟩

theorem cleanFold_rvs_planPresent (env : RefreshEnv) (fan : GVR → List GVR)
    (plan : List (GVR × ResourceSyncConfig)) (W : List GVR) (acc : RefreshAcc)
    (g' : GVR) (h : (lookupA plan g').isSome = true) :
    lookupA (W.foldl (cleanStep env fan plan) acc).rvs g' = lookupA acc.rvs g' := by
  induction W generalizing acc with
  | nil => rfl
  | cons g t ih =>
    exact (ih (cleanStep env fan plan acc g)).trans
      (cleanStep_rvs_planPresent env fan plan acc g g' h)

theorem cleanFold_rvs_none (env : RefreshEnv) (fan : GVR → List GVR)
    (plan : List (GVR × ResourceSyncConfig)) (W : List GVR) (acc : RefreshAcc)
    (g' : GVR) (h : lookupA acc.rvs g' = none) :
    lookupA (W.foldl (cleanStep env fan plan) acc).rvs g' = none := by
  induction W generalizing acc with
  | nil => exact h
  | cons g t ih =>
    exact ih (cleanStep env fan plan acc g) (cleanStep_rvs_none env fan plan acc g g' h)

theorem cleanFold_rvs_wf (env : RefreshEnv) (fan : GVR → List GVR)
    (plan : List (GVR × ResourceSyncConfig)) (W : List GVR) (acc : RefreshAcc)
    (h : ∀ g' rvs, lookupA acc.rvs g' = some rvs →
      rvs.Resources ≠ none ∧ rvs.Events ≠ none) :
    ∀ g' rvs, lookupA (W.foldl (cleanStep env fan plan) acc).rvs g' = some rvs →
      rvs.Resources ≠ none ∧ rvs.Events ≠ none := by
  induction W generalizing acc with
  | nil => exact h
  | cons g t ih =>
    exact ih (cleanStep env fan plan acc g) (cleanStep_rvs_wf env fan plan acc g h)

theorem cleanFold_deleted_mono (env : RefreshEnv) (fan : GVR → List GVR)
    (plan : List (GVR × ResourceSyncConfig)) (W : List GVR) (acc : RefreshAcc)
    (gvr : GVR) (h : gvr ∉ acc.deleted) :
    gvr ∉ (W.foldl (cleanStep env fan plan) acc).deleted := by
  induction W generalizing acc with
  | nil => exact h
  | cons g t ih =>
    exact ih (cleanStep env fan plan acc g) (cleanStep_deleted_mono env fan plan acc g gvr h)

theorem cleanFold_trace_mono (env : RefreshEnv) (fan : GVR → List GVR)
    (plan : List (GVR × ResourceSyncConfig)) (W : List GVR) (acc : RefreshAcc)
    (e : RefreshEffect) (h : e ∈ acc.trace) :
    e ∈ (W.foldl (cleanStep env fan plan) acc).trace := by
  induction W generalizing acc with
  | nil => exact h
  | cons g t ih =>
    exact ih (cleanStep env fan plan acc g) (cleanStep_trace_mono env fan plan acc g e h)

theorem cleanFold_erases (env : RefreshEnv) (fan : GVR → List GVR)
    (plan : List (GVR × ResourceSyncConfig)) (W : List GVR) (acc : RefreshAcc)
    (g : GVR) (hg : g ∈ W) (hp : lookupA plan g = none) :
    lookupA (W.foldl (cleanStep env fan plan) acc).rvs g = none := by
  induction W generalizing acc with
  | nil => exact absurd hg (List.not_mem_nil g)
  | cons w t ih =>
    rcases List.mem_cons.mp hg with hg1 | hg1
    · subst hg1
      exact cleanFold_rvs_none env fan plan t (cleanStep env fan plan acc g) g
        (cleanStep_erases_target env fan plan acc g hp)
    · exact ih (cleanStep env fan plan acc w) hg1

theorem cleanFold_failure_effects (env : RefreshEnv) (fan : GVR → List GVR)
    (plan : List (GVR × ResourceSyncConfig)) (W : List GVR) (acc : RefreshAcc)
    (g : GVR) (err : String) (hg : g ∈ W) (hp : lookupA plan g = none)
    (hc : env.cleanClusterResource g = some err) :
    (∀ gvr ∈ fan g,
      RefreshEffect.condUpdated gvr ResourceSyncStatusStop CleanResourceFailedReason ∈
        (W.foldl (cleanStep env fan plan) acc).trace) ∧
    (∀ gvr ∈ fan g, gvr ∉ (W.foldl (cleanStep env fan plan) acc).deleted) := by
  induction W generalizing acc with
  | nil => exact absurd hg (List.not_mem_nil g)
  | cons w t ih =>
    rcases List.mem_cons.mp hg with hg1 | hg1
    · subst hg1
      have hstep := cleanStep_failure env fan plan acc g err hp hc
      constructor
      · intro gvr hgvr
        refine cleanFold_trace_mono env fan plan t (cleanStep env fan plan acc g) _ ?_
        rw [hstep]
        simp only [List.mem_append]
        right
        simp [updateSyncConditionsTrace]
        exact hgvr
      · intro gvr hgvr
        refine cleanFold_deleted_mono env fan plan t (cleanStep env fan plan acc g) gvr ?_
        rw [hstep]
        simp only
        intro hmem
        have := List.of_mem_filter hmem
        simp at this
        exact this hgvr
    · exact ih (cleanStep env fan plan acc w) hg1

theorem createStep_aborted_deleted (env : RefreshEnv) (fan : GVR → List GVR) (hl : Bool)
    (acc : RefreshAcc) (entry : GVR × ResourceSyncConfig) :
    (createStep env fan hl acc entry).aborted = acc.aborted ∧
    (createStep env fan hl acc entry).deleted = acc.deleted := by
  by_cases he : (lookupA acc.registry entry.1).isSome = true
  · rw [createStep_registered env fan hl acc entry he]
    exact ⟨rfl, rfl⟩
  · simp only [createStep, if_neg he]
    cases hs : env.newResourceStorage entry.2.resourceStorageConfig with
    | error e => exact ⟨rfl, rfl⟩
    | ok n =>
        cases hc : env.newResourceSynchro entry.2 with
        | error e => exact ⟨rfl, rfl⟩
        | ok syn => exact ⟨rfl, rfl⟩

theorem createFold_aborted_deleted (env : RefreshEnv) (fan : GVR → List GVR) (hl : Bool)
    (plan : List (GVR × ResourceSyncConfig)) (acc : RefreshAcc) :
    (plan.foldl (createStep env fan hl) acc).aborted = acc.aborted ∧
    (plan.foldl (createStep env fan hl) acc).deleted = acc.deleted := by
  induction plan generalizing acc with
  | nil => exact ⟨rfl, rfl⟩
  | cons e t ih =>
    have hs := createStep_aborted_deleted env fan hl acc e
    have ht := ih (createStep env fan hl acc e)
    exact ⟨ht.1.trans hs.1, ht.2.trans hs.2⟩

theorem removeStep_registry_notmem (c : Bool) (fan : GVR → List GVR) (acc : RefreshAcc)
    (w g : GVR) (hne : ¬ w = g) :
    lookupA (removeStep c fan acc w).registry g = lookupA acc.registry g := by
  by_cases ha : acc.aborted = true
  · rw [removeStep_aborted_noop c fan acc w ha]
  · simp only [removeStep, if_neg ha]
    cases hl : lookupA acc.registry w with
    | none => rfl
    | some syn =>
        cases c with
        | true => rfl
        | false =>
            simp only [Bool.false_eq_true, if_false]
            exact lookupA_eraseA_ne acc.registry w g (fun hh => hne hh.symm)

theorem removeFold_registry_notmem (c : Bool) (fan : GVR → List GVR) (R : List GVR)
    (acc : RefreshAcc) (g : GVR) (hg : g ∉ R) :
    lookupA (R.foldl (removeStep c fan) acc).registry g = lookupA acc.registry g := by
  induction R generalizing acc with
  | nil => rfl
  | cons w t ih =>
    have hne : ¬ w = g := fun hh => hg (hh ▸ List.mem_cons_self w t)
    have hgt : g ∉ t := fun hh => hg (List.mem_cons_of_mem w hh)
    exact (ih (removeStep c fan acc w) hgt).trans
      (removeStep_registry_notmem c fan acc w g hne)

theorem removeStep_trace_filter (c : Bool) (fan : GVR → List GVR) (acc : RefreshAcc)
    (w g : GVR) :
    (removeStep c fan acc w).trace.filter (creationEffectFor g) =
      acc.trace.filter (creationEffectFor g) := by
  by_cases ha : acc.aborted = true
  · rw [removeStep_aborted_noop c fan acc w ha]
  · simp only [removeStep, if_neg ha]
    cases hl : lookupA acc.registry w with
    | none => rfl
    | some syn =>
        cases c with
        | true => simp [List.filter_append, creationEffectFor]
        | false =>
            simp [List.filter_append, creationEffectFor,
              filter_creationEffectFor_condTrace]

theorem removeFold_trace_filter (c : Bool) (fan : GVR → List GVR) (R : List GVR)
    (acc : RefreshAcc) (g : GVR) :
    (R.foldl (removeStep c fan) acc).trace.filter (creationEffectFor g) =
      acc.trace.filter (creationEffectFor g) := by
  induction R generalizing acc with
  | nil => rfl
  | cons w t ih =>
    exact (ih (removeStep c fan acc w)).trans (removeStep_trace_filter c fan acc w g)

theorem cleanStep_trace_filter (env : RefreshEnv) (fan : GVR → List GVR)
    (plan : List (GVR × ResourceSyncConfig)) (acc : RefreshAcc) (w g : GVR) :
    (cleanStep env fan plan acc w).trace.filter (creationEffectFor g) =
      acc.trace.filter (creationEffectFor g) := by
  by_cases hp : (lookupA plan w).isSome = true
  · simp [cleanStep, hp]
  · simp only [cleanStep, if_neg hp]
    cases hc : env.cleanClusterResource w with
    | none => simp [List.filter_append, creationEffectFor]
    | some err =>
        simp [List.filter_append, creationEffectFor,
          filter_creationEffectFor_condTrace]

theorem cleanFold_trace_filter (env : RefreshEnv) (fan : GVR → List GVR)
    (plan : List (GVR × ResourceSyncConfig)) (W : List GVR) (acc : RefreshAcc)
    (g : GVR) :
    (W.foldl (cleanStep env fan plan) acc).trace.filter (creationEffectFor g) =
      acc.trace.filter (creationEffectFor g) := by
  induction W generalizing acc with
  | nil => rfl
  | cons w t ih =>
    exact (ih (cleanStep env fan plan acc w)).trans
      (cleanStep_trace_filter env fan plan acc w g)

theorem cleanStep_trace_extends (env : RefreshEnv) (fan : GVR → List GVR)
    (plan : List (GVR × ResourceSyncConfig)) (acc : RefreshAcc) (w : GVR) :
    ∃ t, (cleanStep env fan plan acc w).trace = acc.trace ++ t := by
  by_cases hp : (lookupA plan w).isSome = true
  · exact ⟨[], by simp [cleanStep, hp]⟩
  · simp only [cleanStep, if_neg hp]
    cases hc : env.cleanClusterResource w with
    | none => exact ⟨[RefreshEffect.cleanInvoked w true], rfl⟩
    | some err =>
        exact ⟨[RefreshEffect.cleanInvoked w false] ++
          updateSyncConditionsTrace (fan w) ResourceSyncStatusStop
            CleanResourceFailedReason, by simp⟩

theorem cleanFold_trace_extends (env : RefreshEnv) (fan : GVR → List GVR)
    (plan : List (GVR × ResourceSyncConfig)) (W : List GVR) (acc : RefreshAcc) :
    ∃ t, (W.foldl (cleanStep env fan plan) acc).trace = acc.trace ++ t := by
  induction W generalizing acc with
  | nil => exact ⟨[], by simp⟩
  | cons w t ih =>
    obtain ⟨t1, h1⟩ := cleanStep_trace_extends env fan plan acc w
    obtain ⟨t2, h2⟩ := ih (cleanStep env fan plan acc w)
    exact ⟨t1 ++ t2, by rw [List.foldl_cons, h2, h1, List.append_assoc]⟩

theorem cleanFold_invoked (env : RefreshEnv) (fan : GVR → List GVR)
    (plan : List (GVR × ResourceSyncConfig)) (W : List GVR) (acc : RefreshAcc)
    (g : GVR) (hg : g ∈ W) (hp : lookupA plan g = none) :
    RefreshEffect.cleanInvoked g (env.cleanClusterResource g).isNone ∈
      (W.foldl (cleanStep env fan plan) acc).trace := by
  induction W generalizing acc with
  | nil => exact absurd hg (List.not_mem_nil g)
  | cons w t ih =>
    rcases List.mem_cons.mp hg with hg1 | hg1
    · subst hg1
      refine cleanFold_trace_mono env fan plan t (cleanStep env fan plan acc g) _ ?_
      cases hc : env.cleanClusterResource g with
      | none =>
          rw [cleanStep_success env fan plan acc g hp hc]
          simp [hc]
      | some err =>
          rw [cleanStep_failure env fan plan acc g err hp hc]
          simp [hc]
    · exact ih (cleanStep env fan plan acc w) hg1

/-! ### Deletion of removed sync GVRs from the status -/

theorem lookupA_deleteVersionFold (l : List GVR) (grs : GroupResourceStatus) (g : GVR) :
    lookupA (l.foldl deleteVersion grs) g =
      if g ∈ l then none else lookupA grs g := by
  induction l generalizing grs with
  | nil => simp
  | cons d t ih =>
    show lookupA (t.foldl deleteVersion (deleteVersion grs d)) g = _
    rw [ih]
    by_cases ht : g ∈ t
    · simp [ht]
    · by_cases hd : g = d
      · simp [ht, hd, deleteVersion, lookupA_eraseA_self]
      · simp [ht, hd, deleteVersion, lookupA_eraseA_ne grs d g hd]

/-! ### Lemmas about the status loop and the lifecycle -/

/-- The status loop invariant: at most one pending notification, and one
UpdateClusterStatus call per accepted notification. -/
def statusLoopInvariant (st : StatusLoopState) : Prop :=
  st.buf.length ≤ updateStatusChCapacity ∧ st.calls + st.buf.length = st.accepted

theorem statusStep_preserves (st : StatusLoopState) (e : StatusStep)
    (h : statusLoopInvariant st) : statusLoopInvariant (statusStepApply st e) := by
  obtain ⟨h1, h2⟩ := h
  cases e with
  | send =>
      simp only [statusStepApply]
      split
      · rename_i hb
        constructor
        · simp only [List.length_append, List.length_cons, List.length_nil]
          omega
        · simp only [List.length_append, List.length_cons, List.length_nil]
          omega
      · exact ⟨h1, h2⟩
  | consume =>
      simp only [statusStepApply]
      split
      · exact ⟨h1, h2⟩
      · rename_i u rest heq
        have hlen : st.buf.length = rest.length + 1 := by rw [heq]; rfl
        constructor
        · simp only
          omega
        · simp only
          omega

theorem statusFold_invariant (steps : List StatusStep) :
    statusLoopInvariant (steps.foldl statusStepApply statusLoopInit) :=
  List.foldlRecOn steps statusStepApply statusLoopInit
    ⟨by simp [statusLoopInit, updateStatusChCapacity], by simp [statusLoopInit]⟩
    (fun st hst e _ => statusStep_preserves st e hst)

theorem shutdownBody_noop (u : Bool) (s : LifecycleState) (h : s.onceUsed = true) :
    shutdownBody u s = (s, []) := by
  simp [shutdownBody, h]

theorem shutdownBody_fst_onceUsed (u : Bool) (s : LifecycleState) :
    (shutdownBody u s).1.onceUsed = true := by
  by_cases h : s.onceUsed = true
  · rw [shutdownBody_noop u s h]
    exact h
  · have h' : s.onceUsed = false := by simpa using h
    cases u <;> simp [shutdownBody, h']

theorem shutdownBody_first (u : Bool) (s : LifecycleState) (h : s.onceUsed = false) :
    shutdownBody u s =
      ({ s with
          onceUsed := true
          closerClosed := true
          waited := true
          runningCondition := shutdownRunningCondition
          statusChSlot :=
            if u then sendStatusNotification s.statusChSlot else s.statusChSlot
          statusChClosed := true },
        [ShutdownEffect.closedCloser, ShutdownEffect.waitedWorkers,
         ShutdownEffect.storedShutdownCondition] ++
          (if u then [ShutdownEffect.calledUpdateStatus] else []) ++
          [ShutdownEffect.closedStatusCh]) := by
  cases u <;> simp [shutdownBody, h]

theorem shutdownTimes_eq_once (u : Bool) :
    ∀ n, 1 ≤ n → ∀ s, shutdownTimes n u s = shutdownBody u s := by
  intro n
  induction n with
  | zero => intro h; exact absurd h (by omega)
  | succ m ih =>
    intro _ s
    by_cases hm : 1 ≤ m
    · have hrest := ih hm (shutdownBody u s).1
      have hnoop := shutdownBody_noop u (shutdownBody u s).1 (shutdownBody_fst_onceUsed u s)
      simp only [shutdownTimes]
      rw [hrest, hnoop]
      simp
    · have hm0 : m = 0 := by omega
      subst hm0
      simp [shutdownTimes]

/-- The lifecycle invariant: a closed status channel means the first
Shutdown call completed its work, and a closed closed-channel means the
status channel was closed before that. -/
def lifeInvariant (s : LifecycleState) : Prop :=
  (s.statusChClosed = true → firstShutdownWorkDone s) ∧
  (s.closedClosed = true → s.statusChClosed = true)

theorem lifeApply_preserves (s : LifecycleState) (e : LifeStep)
    (h : lifeInvariant s) : lifeInvariant (lifeApply s e) := by
  cases e with
  | shutdownCall u =>
      by_cases ho : s.onceUsed = true
      · simp only [lifeApply]
        rw [shutdownBody_noop u s ho]
        exact h
      · have ho' : s.onceUsed = false := by simpa using ho
        simp only [lifeApply]
        rw [shutdownBody_first u s ho']
        exact ⟨fun _ => ⟨rfl, rfl, rfl, rfl, rfl⟩, fun _ => rfl⟩
  | consumeStatus =>
      simp only [lifeApply]
      split
      · exact h
      · exact ⟨fun hc => h.1 hc, fun hc => h.2 hc⟩
  | finishConsumer =>
      simp only [lifeApply]
      split
      · rename_i hcond
        have hsc : s.statusChClosed = true := by
          simpa using (Bool.and_eq_true _ _).mp hcond |>.1
        exact ⟨fun _ => h.1 hsc, fun _ => hsc⟩
      · exact h

theorem lifeFold_invariant (steps : List LifeStep) :
    lifeInvariant (steps.foldl lifeApply lifeInit) :=
  List.foldlRecOn steps lifeApply lifeInit
    ⟨by intro hc; simp [lifeInit] at hc, by intro hc; simp [lifeInit] at hc⟩
    (fun s hs e _ => lifeApply_preserves s e hs)

/-! ### Claim theorems -/

/-- C9: every error wrapped by NewRecoverableException satisfies
IsRecoverableException, and every error value that is not the marker
wrapper itself fails the test, whatever its message: the classification
is by the marker type. -/
theorem C9_recoverable_exception_marker :
    (∀ e : GoError, IsRecoverableException (NewRecoverableException e) = true) ∧
    (∀ e : GoError, (∀ inner, e ≠ GoError.storageRecoverableException inner) →
      IsRecoverableException e = false) := by
  refine ⟨fun e => rfl, fun e h => ?_⟩
  cases e with
  | base msg => rfl
  | wrap msg inner => rfl
  | storageRecoverableException inner => exact absurd rfl (h inner)

/-- A concrete error message for witnesses. -/
def sampleErrorMessage : String := "backend unavailable"

/-- Witness for C9 at a concrete error value. -/
theorem C9_recoverable_exception_marker_witness :
    IsRecoverableException (NewRecoverableException (GoError.base sampleErrorMessage)) = true ∧
    IsRecoverableException (GoError.base sampleErrorMessage) = false :=
  ⟨C9_recoverable_exception_marker.1 (GoError.base sampleErrorMessage),
   C9_recoverable_exception_marker.2 (GoError.base sampleErrorMessage)
     (fun _ h => GoError.noConfusion h)⟩

/-- C5: New fails with the RetryableError marker exactly when the
discovery manager creation or the initial GetResourceVersions load
fails; a lister-watcher factory failure or a cluster client build
failure yields a plain error. -/
theorem C5_new_error_classification (env : NewEnv) :
    ((isErr env.discoveryResult = true ∨ isErr env.resourceVersionsResult = true) →
      ∃ err, new env = Except.error err ∧ err.retryable = true) ∧
    (∀ err, new env = Except.error err →
      (err.retryable = true ↔
        (isErr env.discoveryResult = true ∨ isErr env.resourceVersionsResult = true))) ∧
    (isErr env.discoveryResult = false → isErr env.resourceVersionsResult = false →
      isErr env.listerWatcherResult = true →
      ∃ err, new env = Except.error err ∧ err.retryable = false) ∧
    (isErr env.discoveryResult = false → isErr env.resourceVersionsResult = false →
      isErr env.listerWatcherResult = false → isErr env.healthCheckerResult = false →
      isErr env.clientResult = true →
      ∃ err, new env = Except.error err ∧ err.retryable = false) := by
  obtain ⟨d, r, lw, hc, cl⟩ := env
  cases d <;> cases r <;> cases lw <;> cases hc <;> cases cl <;>
    simp [new, isErr]

/-- A construction environment where every step succeeds. -/
def newEnvAllOk : NewEnv :=
  { discoveryResult := Except.ok 0
    resourceVersionsResult := Except.ok []
    listerWatcherResult := Except.ok 0
    healthCheckerResult := Except.ok 0
    clientResult := Except.ok 0 }

/-- A construction environment whose discovery creation fails. -/
def newEnvDiscoveryFailed : NewEnv :=
  { newEnvAllOk with discoveryResult := Except.error sampleErrorMessage }

/-- Witness for C5: a discovery failure produces a retryable error. -/
theorem C5_new_error_classification_witness :
    ∃ err, new newEnvDiscoveryFailed = Except.error err ∧ err.retryable = true :=
  (C5_new_error_classification newEnvDiscoveryFailed).1 (Or.inl rfl)

/-- C10: while syncResources is still the nil slice a refresh wakeup is
a no-op, genClusterStatus with a nil groupResourceStatus reports only
the running and healthy conditions with nil sync resources, and New
establishes exactly that initial state. -/
theorem C10_pre_set_resources_noop (env : RefreshEnv) (senv : StatusEnv)
    (nenv : NewEnv) (s : SynchroState) :
    (s.syncResources = none → refreshSyncResources env s = (s, [])) ∧
    (s.groupResourceStatus = none →
      genClusterStatus senv s =
        { version := senv.serverVersion
          conditions := [s.runningCondition, s.healthyCondition]
          syncResources := none }) ∧
    (∀ s0, new nenv = Except.ok s0 →
      s0.syncResources = none ∧ s0.groupResourceStatus = none ∧
        refreshSyncResources env s0 = (s0, [])) := by
  refine ⟨?_, ?_, ?_⟩
  · intro h
    simp [refreshSyncResources, h]
  · intro h
    simp [genClusterStatus, h]
  · intro s0 h
    obtain ⟨d, r, lw, hc, cl⟩ := nenv
    cases d <;> cases r <;> cases lw <;> cases hc <;> cases cl <;>
      simp only [new] at h
    all_goals first
      | exact Except.noConfusion h
      | (cases h; exact ⟨rfl, rfl, rfl⟩)

/-- A trivial refresh environment for witnesses. -/
def refreshEnvTrivial : RefreshEnv :=
  { negotiate := fun _ => ([], [])
    newResourceStorage := fun n => Except.ok n
    newResourceSynchro := fun c => Except.ok { id := 0, syncResource := c.syncResource }
    cleanClusterResource := fun _ => none }

/-- A trivial status environment for witnesses. -/
def statusEnvTrivial : StatusEnv :=
  { serverVersion := "v1.27.3"
    synchroStatus := fun _ =>
      { status := ResourceSyncStatusSyncing, reason := emptyString, message := emptyString } }

/-- The state New produces in the all-success environment. -/
def initialStateSample : SynchroState :=
  { syncResources := none
    groupResourceStatus := none
    storageResourceSynchros := []
    storageResourceVersions := []
    handlerLive := false
    closerClosed := false
    runningCondition := newPendingRunningCondition
    healthyCondition := newHealthyCondition }

/-- Witness for C10 at the state built by New. -/
theorem C10_pre_set_resources_noop_witness :
    initialStateSample.syncResources = none ∧
    initialStateSample.groupResourceStatus = none ∧
    refreshSyncResources refreshEnvTrivial initialStateSample = (initialStateSample, []) :=
  (C10_pre_set_resources_noop refreshEnvTrivial statusEnvTrivial newEnvAllOk
    initialStateSample).2.2 initialStateSample rfl

/-- C8: updateStatusCh has capacity one; updateStatus never blocks (a
send while one notification is pending is dropped); the consumer pops
one notification and performs exactly one UpdateClusterStatus call for
it; and along any interleaving of sends and receives at most one
notification is pending, with one call per accepted notification. -/
theorem C8_status_channel_single_slot :
    updateStatusChCapacity = 1 ∧
    (∀ buf : List Unit, 1 ≤ buf.length → sendStatusNotification buf = buf) ∧
    sendStatusNotification [] = [()] ∧
    (∀ st : StatusLoopState, ∀ u : Unit, ∀ rest, st.buf = u :: rest →
      statusStepApply st StatusStep.consume =
        { st with buf := rest, calls := st.calls + 1 }) ∧
    (∀ steps : List StatusStep,
      (steps.foldl statusStepApply statusLoopInit).buf.length ≤ 1 ∧
      (steps.foldl statusStepApply statusLoopInit).calls +
          (steps.foldl statusStepApply statusLoopInit).buf.length =
        (steps.foldl statusStepApply statusLoopInit).accepted) := by
  refine ⟨rfl, ?_, rfl, ?_, ?_⟩
  · intro buf h
    simp only [sendStatusNotification, updateStatusChCapacity]
    rw [if_neg (by omega)]
  · intro st u rest h
    simp [statusStepApply, h]
  · intro steps
    have h := statusFold_invariant steps
    exact ⟨by simpa [updateStatusChCapacity] using h.1, h.2⟩

/-- Witness for C8: a pending notification is dropped and a consume
performs one call. -/
theorem C8_status_channel_single_slot_witness :
    sendStatusNotification [()] = [()] ∧
    statusStepApply { buf := [()], calls := 0, accepted := 1 } StatusStep.consume =
      { buf := [], calls := 1, accepted := 1 } :=
  ⟨C8_status_channel_single_slot.2.1 [()] (by decide),
   C8_status_channel_single_slot.2.2.2.1 { buf := [()], calls := 0, accepted := 1 } () [] rfl⟩

/-- C1: Shutdown called N times behaves as one call: a second body run is
a no-op with no effects, N sequential calls equal one, the first call
(and only it) closes the closer, waits for the workers, stores the
terminal Running condition, optionally enqueues one publication and
closes the status channel in that order, and in every interleaving a
caller can observe the closed channel closed (the return condition of
every Shutdown call) only after the work of the first call is done. -/
theorem C1_shutdown_idempotent :
    (∀ (u : Bool) (s : LifecycleState),
      shutdownBody u ((shutdownBody u s).1) = ((shutdownBody u s).1, [])) ∧
    (∀ (u : Bool) (n : Nat), 1 ≤ n → ∀ s, shutdownTimes n u s = shutdownBody u s) ∧
    (∀ (u : Bool) (s : LifecycleState), s.onceUsed = false →
      shutdownBody u s =
        ({ s with
            onceUsed := true
            closerClosed := true
            waited := true
            runningCondition := shutdownRunningCondition
            statusChSlot :=
              if u then sendStatusNotification s.statusChSlot else s.statusChSlot
            statusChClosed := true },
          [ShutdownEffect.closedCloser, ShutdownEffect.waitedWorkers,
           ShutdownEffect.storedShutdownCondition] ++
            (if u then [ShutdownEffect.calledUpdateStatus] else []) ++
            [ShutdownEffect.closedStatusCh])) ∧
    (∀ steps : List LifeStep,
      shutdownReturnObservable (steps.foldl lifeApply lifeInit) →
      firstShutdownWorkDone (steps.foldl lifeApply lifeInit)) := by
  refine ⟨?_, ?_, shutdownBody_first, ?_⟩
  · intro u s
    exact shutdownBody_noop u (shutdownBody u s).1 (shutdownBody_fst_onceUsed u s)
  · intro u n hn s
    exact shutdownTimes_eq_once u n hn s
  · intro steps hret
    have h := lifeFold_invariant steps
    exact h.1 (h.2 hret)

/-- Witness for C1: three calls equal one on the fresh lifecycle state,
and the run that closes everything satisfies the return condition. -/
theorem C1_shutdown_idempotent_witness :
    shutdownTimes 3 true lifeInit = shutdownBody true lifeInit ∧
    shutdownBody true ((shutdownBody true lifeInit).1) =
      ((shutdownBody true lifeInit).1, []) ∧
    firstShutdownWorkDone
      ([LifeStep.shutdownCall true, LifeStep.consumeStatus,
        LifeStep.finishConsumer].foldl lifeApply lifeInit) :=
  ⟨C1_shutdown_idempotent.2.1 true 3 (by decide) lifeInit,
   C1_shutdown_idempotent.1 true lifeInit,
   C1_shutdown_idempotent.2.2.2
     [LifeStep.shutdownCall true, LifeStep.consumeStatus, LifeStep.finishConsumer]
     rfl⟩

/-- C7: during a refresh whose plan still contains an already-registered
storage GVR, the existing synchro is preserved untouched even if the
config differs: the registry entry is unchanged and no storage or
synchro creation effect is emitted for that GVR. -/
theorem C7_existing_synchro_preserved (env : RefreshEnv) (s : SynchroState) (sr : Nat)
    (g : GVR) (hsr : s.syncResources = some sr)
    (hreg : (lookupA s.storageResourceSynchros g).isSome = true)
    (hplan : (lookupA (refreshPlan env sr) g).isSome = true) :
    lookupA (refreshSyncResources env s).1.storageResourceSynchros g =
      lookupA s.storageResourceSynchros g ∧
    (refreshSyncResources env s).2.filter (creationEffectFor g) = [] := by
  have hreg0 : (lookupA (refreshAcc0 env s sr).registry g).isSome = true := hreg
  have h1 := createFold_preserves_registered env (refreshFan env s sr) s.handlerLive
    (refreshPlan env sr) (refreshAcc0 env s sr) g hreg0
  have hr1 : lookupA (refreshAcc1 env s sr).registry g = lookupA s.storageResourceSynchros g :=
    h1.1
  have ht1 : (refreshAcc1 env s sr).trace.filter (creationEffectFor g) = [] := h1.2
  have hreg1 : (lookupA (refreshAcc1 env s sr).registry g).isSome = true := by
    rw [hr1]
    exact hreg
  have hnotmem : g ∉ refreshRemoved env s sr := by
    intro hmem
    have hp := List.of_mem_filter hmem
    simp only [Option.isNone_iff_eq_none] at hp
    rw [hp] at hplan
    simp at hplan
  have hr2 : lookupA (refreshAcc2 env s sr).registry g =
      lookupA (refreshAcc1 env s sr).registry g :=
    removeFold_registry_notmem s.closerClosed (refreshFan env s sr)
      (refreshRemoved env s sr) (refreshAcc1 env s sr) g hnotmem
  have ht2 : (refreshAcc2 env s sr).trace.filter (creationEffectFor g) =
      (refreshAcc1 env s sr).trace.filter (creationEffectFor g) :=
    removeFold_trace_filter s.closerClosed (refreshFan env s sr)
      (refreshRemoved env s sr) (refreshAcc1 env s sr) g
  by_cases hab : (refreshAcc2 env s sr).aborted = true
  · have heq : refreshSyncResources env s =
        ({ s with
            groupResourceStatus := some (refreshAcc2 env s sr).grs
            storageResourceSynchros := (refreshAcc2 env s sr).registry
            storageResourceVersions := (refreshAcc2 env s sr).rvs },
          (refreshAcc2 env s sr).trace) := by
      simp [refreshSyncResources, hsr, hab]
    rw [heq]
    exact ⟨hr2.trans hr1, ht2.trans ht1⟩
  · have hr3 := cleanFold_registry env (refreshFan env s sr) (refreshPlan env sr)
      (keysA (refreshAcc2 env s sr).rvs) (refreshAcc2 env s sr)
    have ht3 := cleanFold_trace_filter env (refreshFan env s sr) (refreshPlan env sr)
      (keysA (refreshAcc2 env s sr).rvs) (refreshAcc2 env s sr) g
    have heq : refreshSyncResources env s =
        ({ s with
            groupResourceStatus :=
              some ((refreshAcc3 env s sr).deleted.foldl deleteVersion
                (refreshAcc3 env s sr).grs)
            storageResourceSynchros := (refreshAcc3 env s sr).registry
            storageResourceVersions := (refreshAcc3 env s sr).rvs },
          (refreshAcc3 env s sr).trace) := by
      simp [refreshSyncResources, hsr, hab, refreshAcc3]
    rw [heq]
    constructor
    · show lookupA (refreshAcc3 env s sr).registry g = _
      rw [show (refreshAcc3 env s sr).registry = (refreshAcc2 env s sr).registry from hr3.1]
      exact hr2.trans hr1
    · show (refreshAcc3 env s sr).trace.filter (creationEffectFor g) = []
      exact ht3.trans (ht2.trans ht1)

/-- A sample storage GVR. -/
def podsGVR : GVR := { group := emptyString, version := "v1", resource := "pods" }

/-- A second sample storage GVR. -/
def deploymentsGVR : GVR := { group := "apps", version := "v1", resource := "deployments" }

/-- A sample sync config for a GVR. -/
def sampleConfig (g : GVR) : ResourceSyncConfig :=
  { syncResource := g, kind := "Pod", syncEvents := false, resourceStorageConfig := 7 }

/-- A sample fresh sync condition for pods. -/
def samplePodsCondition : SyncCondition :=
  { storageGVR := podsGVR
    status := ResourceSyncStatusPending
    reason := SynchroPendingReason
    message := emptyString }

/-- A refresh environment whose plan contains pods. -/
def refreshEnvPodsPlan : RefreshEnv :=
  { refreshEnvTrivial with
      negotiate := fun _ =>
        ([(podsGVR, samplePodsCondition)], [(podsGVR, sampleConfig podsGVR)]) }

/-- A state with pods registered and a valid watermark entry. -/
def statePodsRegistered : SynchroState :=
  { initialStateSample with
      syncResources := some 1
      storageResourceSynchros := [(podsGVR, { id := 42, syncResource := podsGVR })]
      storageResourceVersions := [(podsGVR, emptyRVS)] }

/-- Witness for C7 at a concrete registered GVR kept by the plan. -/
theorem C7_existing_synchro_preserved_witness :
    lookupA (refreshSyncResources refreshEnvPodsPlan statePodsRegistered).1.storageResourceSynchros
        podsGVR =
      lookupA statePodsRegistered.storageResourceSynchros podsGVR ∧
    (refreshSyncResources refreshEnvPodsPlan statePodsRegistered).2.filter
        (creationEffectFor podsGVR) = [] :=
  C7_existing_synchro_preserved refreshEnvPodsPlan statePodsRegistered 1 podsGVR rfl
    (by simp [statePodsRegistered, initialStateSample, lookupA])
    (by simp [refreshPlan, refreshEnvPodsPlan, refreshEnvTrivial, lookupA])

/-- Watermark maps with both submaps made (non-nil). -/
def watermarksWF (m : List (GVR × ClusterResourceVersions)) : Prop :=
  ∀ g e, lookupA m g = some e → e.Resources ≠ none ∧ e.Events ≠ none

/-- Every registered storage GVR has a watermark entry. -/
def registryCovered (reg : List (GVR × ResourceSynchro))
    (m : List (GVR × ClusterResourceVersions)) : Prop :=
  ∀ g, (lookupA reg g).isSome = true → (lookupA m g).isSome = true

theorem initWithResourceVersions_wf (loaded : List (GVR × ClusterResourceVersions)) :
    watermarksWF (initWithResourceVersions loaded) := by
  unfold initWithResourceVersions
  split
  · intro g e h
    simp [lookupA] at h
  · refine List.foldlRecOn loaded _ [] ?_ ?_
    · intro g e h
      simp [lookupA] at h
    · intro m hm p _
      exact insertA_preserves_wf m p.1 (normalizeRVS p.2) hm (by simp [normalizeRVS])

/-- C2: initWithResourceVersions normalises every loaded entry to non-nil
submaps, and a refresh preserves the invariant that the watermark map is
well formed and covers the registry: afterwards every registered storage
GVR still has a watermark entry with both submaps non-nil. -/
theorem C2_registry_watermark_invariant :
    (∀ loaded, watermarksWF (initWithResourceVersions loaded)) ∧
    (∀ (env : RefreshEnv) (s : SynchroState),
      watermarksWF s.storageResourceVersions →
      registryCovered s.storageResourceSynchros s.storageResourceVersions →
      watermarksWF (refreshSyncResources env s).1.storageResourceVersions ∧
      registryCovered (refreshSyncResources env s).1.storageResourceSynchros
        (refreshSyncResources env s).1.storageResourceVersions ∧
      (∀ g, (lookupA (refreshSyncResources env s).1.storageResourceSynchros g).isSome = true →
        ∃ e, lookupA (refreshSyncResources env s).1.storageResourceVersions g = some e ∧
          e.Resources ≠ none ∧ e.Events ≠ none)) := by
  refine ⟨initWithResourceVersions_wf, ?_⟩
  intro env s hwf hcov
  have hderive : ∀ (m1 : List (GVR × ResourceSynchro)) (m2 : List (GVR × ClusterResourceVersions)),
      watermarksWF m2 → registryCovered m1 m2 →
      ∀ g, (lookupA m1 g).isSome = true →
        ∃ e, lookupA m2 g = some e ∧ e.Resources ≠ none ∧ e.Events ≠ none := by
    intro m1 m2 h1 h2 g hg
    obtain ⟨e, he⟩ := Option.isSome_iff_exists.mp (h2 g hg)
    exact ⟨e, he, h1 g e he⟩
  cases hsr : s.syncResources with
  | none =>
      have heq : refreshSyncResources env s = (s, []) := by
        simp [refreshSyncResources, hsr]
      rw [heq]
      exact ⟨hwf, hcov, hderive _ _ hwf hcov⟩
  | some sr =>
      have hinv0 : accInvariant (refreshAcc0 env s sr) := ⟨hwf, hcov⟩
      have hinv1 : accInvariant (refreshAcc1 env s sr) :=
        createFold_accInvariant env (refreshFan env s sr) s.handlerLive
          (refreshPlan env sr) (refreshAcc0 env s sr) hinv0
      have hrd := removeFold_rvs_deleted s.closerClosed (refreshFan env s sr)
        (refreshRemoved env s sr) (refreshAcc1 env s sr)
      have hrvs2 : (refreshAcc2 env s sr).rvs = (refreshAcc1 env s sr).rvs := hrd.1
      have hwf2 : watermarksWF (refreshAcc2 env s sr).rvs := by
        rw [hrvs2]
        exact hinv1.1
      have hcov2 : registryCovered (refreshAcc2 env s sr).registry (refreshAcc2 env s sr).rvs := by
        intro g hg
        have hg1 := removeFold_registry_isSome s.closerClosed (refreshFan env s sr)
          (refreshRemoved env s sr) (refreshAcc1 env s sr) g hg
        rw [hrvs2]
        exact hinv1.2 g hg1
      by_cases hab : (refreshAcc2 env s sr).aborted = true
      · have heq : refreshSyncResources env s =
            ({ s with
                groupResourceStatus := some (refreshAcc2 env s sr).grs
                storageResourceSynchros := (refreshAcc2 env s sr).registry
                storageResourceVersions := (refreshAcc2 env s sr).rvs },
              (refreshAcc2 env s sr).trace) := by
          simp [refreshSyncResources, hsr, hab]
        rw [heq]
        exact ⟨hwf2, hcov2, hderive _ _ hwf2 hcov2⟩
      · have hplanned : ∀ g, (lookupA (refreshAcc2 env s sr).registry g).isSome = true →
            (lookupA (refreshPlan env sr) g).isSome = true := by
          intro g hg
          have hg1 := removeFold_registry_isSome s.closerClosed (refreshFan env s sr)
            (refreshRemoved env s sr) (refreshAcc1 env s sr) g hg
          by_contra hnp
          have hnone : (lookupA (refreshPlan env sr) g).isNone = true := by
            cases hx : lookupA (refreshPlan env sr) g with
            | none => rfl
            | some v => exact absurd (by simp [hx]) hnp
          have hmem : g ∈ refreshRemoved env s sr :=
            List.mem_filter.mpr ⟨(lookupA_isSome_iff_mem_keysA _ g).mp hg1, hnone⟩
          rcases removeFold_erased_or_aborted s.closerClosed (refreshFan env s sr)
            (refreshRemoved env s sr) (refreshAcc1 env s sr) with habt | herased
          · exact absurd habt hab
          · have hnone2 := herased g hmem
            rw [show lookupA (refreshAcc2 env s sr).registry g = none from hnone2] at hg
            simp at hg
        have hreg3 := cleanFold_registry env (refreshFan env s sr) (refreshPlan env sr)
          (keysA (refreshAcc2 env s sr).rvs) (refreshAcc2 env s sr)
        have hwf3 : watermarksWF (refreshAcc3 env s sr).rvs :=
          cleanFold_rvs_wf env (refreshFan env s sr) (refreshPlan env sr)
            (keysA (refreshAcc2 env s sr).rvs) (refreshAcc2 env s sr) hwf2
        have hcov3 : registryCovered (refreshAcc3 env s sr).registry (refreshAcc3 env s sr).rvs := by
          intro g hg
          rw [show (refreshAcc3 env s sr).registry = (refreshAcc2 env s sr).registry from
            hreg3.1] at hg
          have hp := hplanned g hg
          have hpres := cleanFold_rvs_planPresent env (refreshFan env s sr) (refreshPlan env sr)
            (keysA (refreshAcc2 env s sr).rvs) (refreshAcc2 env s sr) g hp
          rw [show lookupA (refreshAcc3 env s sr).rvs g = lookupA (refreshAcc2 env s sr).rvs g from
            hpres]
          exact hcov2 g hg
        have heq : refreshSyncResources env s =
            ({ s with
                groupResourceStatus :=
                  some ((refreshAcc3 env s sr).deleted.foldl deleteVersion
                    (refreshAcc3 env s sr).grs)
                storageResourceSynchros := (refreshAcc3 env s sr).registry
                storageResourceVersions := (refreshAcc3 env s sr).rvs },
              (refreshAcc3 env s sr).trace) := by
          simp [refreshSyncResources, hsr, hab, refreshAcc3]
        rw [heq]
        exact ⟨hwf3, hcov3, hderive _ _ hwf3 hcov3⟩

/-- Witness for C2: a loaded entry with nil submaps is normalised, and a
refresh on a registered state keeps the invariant. -/
theorem C2_registry_watermark_invariant_witness :
    watermarksWF (initWithResourceVersions [(podsGVR, { Resources := none, Events := none })]) ∧
    watermarksWF
      (refreshSyncResources refreshEnvPodsPlan statePodsRegistered).1.storageResourceVersions :=
  ⟨C2_registry_watermark_invariant.1 [(podsGVR, { Resources := none, Events := none })],
   (C2_registry_watermark_invariant.2 refreshEnvPodsPlan statePodsRegistered
      (by
        intro g e h
        simp only [statePodsRegistered, initialStateSample] at h
        by_cases hg : podsGVR = g
        · rw [← hg] at h
          simp [lookupA, emptyRVS] at h
          rw [← h]
          simp
        · simp [lookupA, hg] at h)
      (by
        intro g hg
        simp only [statePodsRegistered, initialStateSample] at hg ⊢
        by_cases hg2 : podsGVR = g
        · rw [← hg2]
          simp [lookupA]
        · simp [lookupA, hg2] at hg)).1⟩

/-- C6: every sync-condition update during refresh is fanned out over
the storageGVRToSyncGVRs mapping: the update helper changes exactly the
sync GVRs mapped to the storage GVR, both failure branches of the
creation step mark all mapped sync GVRs Pending/SynchroCreateFailed, and
two sync GVRs collapsing onto one storage GVR are updated together. -/
theorem C6_fanout_sync_conditions :
    (∀ (grs : GroupResourceStatus) (storageGVR : GVR) (st rs msg : String) (gvr : GVR),
      lookupA (updateSyncConditionsApply (storageGVRToSyncGVRs grs storageGVR) grs st rs msg)
          gvr =
        if gvr ∈ storageGVRToSyncGVRs grs storageGVR
        then (lookupA grs gvr).map (overrideCondition st rs msg)
        else lookupA grs gvr) ∧
    (∀ (env : RefreshEnv) (fan : GVR → List GVR) (hl : Bool) (acc : RefreshAcc)
        (entry : GVR × ResourceSyncConfig) (msg1 : String),
      lookupA acc.registry entry.1 = none →
      env.newResourceStorage entry.2.resourceStorageConfig = Except.error msg1 →
      createStep env fan hl acc entry =
        { acc with
            grs := updateSyncConditionsApply (fan entry.1) acc.grs
              ResourceSyncStatusPending SynchroCreateFailedReason emptyString
            trace := acc.trace ++ [RefreshEffect.newStorageFailed entry.1] ++
              updateSyncConditionsTrace (fan entry.1) ResourceSyncStatusPending
                SynchroCreateFailedReason }) ∧
    (∀ (env : RefreshEnv) (fan : GVR → List GVR) (hl : Bool) (acc : RefreshAcc)
        (entry : GVR × ResourceSyncConfig) (n : Nat) (msg1 : String),
      lookupA acc.registry entry.1 = none →
      env.newResourceStorage entry.2.resourceStorageConfig = Except.ok n →
      env.newResourceSynchro entry.2 = Except.error msg1 →
      createStep env fan hl acc entry =
        { acc with
            rvs := if (lookupA acc.rvs entry.1).isSome then acc.rvs
              else insertA acc.rvs entry.1 emptyRVS
            grs := updateSyncConditionsApply (fan entry.1) acc.grs
              ResourceSyncStatusPending SynchroCreateFailedReason emptyString
            trace := acc.trace ++
              [RefreshEffect.storageCreated entry.1,
               RefreshEffect.newSynchroFailed entry.1] ++
              updateSyncConditionsTrace (fan entry.1) ResourceSyncStatusPending
                SynchroCreateFailedReason }) ∧
    (∀ (grs : GroupResourceStatus) (storageGVR : GVR) (st rs msg : String) (a b : GVR),
      storageGVRToSyncGVRs grs storageGVR = [a, b] →
      lookupA (updateSyncConditionsApply (storageGVRToSyncGVRs grs storageGVR) grs st rs msg)
          a = (lookupA grs a).map (overrideCondition st rs msg) ∧
      lookupA (updateSyncConditionsApply (storageGVRToSyncGVRs grs storageGVR) grs st rs msg)
          b = (lookupA grs b).map (overrideCondition st rs msg)) := by
  refine ⟨?_, ?_, ?_, ?_⟩
  · intro grs storageGVR st rs msg gvr
    exact lookupA_updateSyncConditionsApply _ grs st rs msg gvr
  · intro env fan hl acc entry msg1 hreg hs
    have hreg' : ¬ (lookupA acc.registry entry.1).isSome = true := by simp [hreg]
    simp [createStep, hreg', hs]
  · intro env fan hl acc entry n msg1 hreg hs hc
    have hreg' : ¬ (lookupA acc.registry entry.1).isSome = true := by simp [hreg]
    simp [createStep, hreg', hs, hc]
  · intro grs storageGVR st rs msg a b hfan
    constructor <;> rw [lookupA_updateSyncConditionsApply, hfan] <;> simp

/-- Two sync GVRs that collapse onto the v1 storage GVR. -/
def cronjobsV1 : GVR := { group := "batch", version := "v1", resource := "cronjobs" }

/-- The beta sync GVR collapsing onto cronjobsV1. -/
def cronjobsV1beta1 : GVR :=
  { group := "batch", version := "v1beta1", resource := "cronjobs" }

/-- A condition mapping a sync GVR onto the cronjobs v1 storage GVR. -/
def cronjobsCondition : SyncCondition :=
  { storageGVR := cronjobsV1
    status := ResourceSyncStatusPending
    reason := SynchroPendingReason
    message := emptyString }

/-- A status where both cronjobs sync GVRs map to one storage GVR. -/
def cronjobsGRS : GroupResourceStatus :=
  [(cronjobsV1, cronjobsCondition), (cronjobsV1beta1, cronjobsCondition)]

/-- An environment whose resource storage constructor fails. -/
def refreshEnvStorageFail : RefreshEnv :=
  { refreshEnvTrivial with newResourceStorage := fun _ => Except.error sampleErrorMessage }

/-- An accumulator carrying the collapsed cronjobs status. -/
def cronjobsAcc : RefreshAcc :=
  { grs := cronjobsGRS, registry := [], rvs := [], deleted := [], trace := [], aborted := false }

/-- Witness for C6: a storage creation failure updates both collapsed
sync conditions together. -/
theorem C6_fanout_sync_conditions_witness :
    createStep refreshEnvStorageFail (storageGVRToSyncGVRs cronjobsGRS) false cronjobsAcc
        (cronjobsV1, sampleConfig cronjobsV1) =
      { cronjobsAcc with
          grs := updateSyncConditionsApply (storageGVRToSyncGVRs cronjobsGRS cronjobsV1)
            cronjobsAcc.grs ResourceSyncStatusPending SynchroCreateFailedReason emptyString
          trace := cronjobsAcc.trace ++ [RefreshEffect.newStorageFailed cronjobsV1] ++
            updateSyncConditionsTrace (storageGVRToSyncGVRs cronjobsGRS cronjobsV1)
              ResourceSyncStatusPending SynchroCreateFailedReason } ∧
    lookupA (updateSyncConditionsApply (storageGVRToSyncGVRs cronjobsGRS cronjobsV1)
        cronjobsGRS ResourceSyncStatusStop SynchroRemovedReason synchroMovedMessage)
        cronjobsV1beta1 =
      (lookupA cronjobsGRS cronjobsV1beta1).map
        (overrideCondition ResourceSyncStatusStop SynchroRemovedReason synchroMovedMessage) :=
  ⟨C6_fanout_sync_conditions.2.1 refreshEnvStorageFail (storageGVRToSyncGVRs cronjobsGRS)
      false cronjobsAcc (cronjobsV1, sampleConfig cronjobsV1) sampleErrorMessage rfl rfl,
   (C6_fanout_sync_conditions.2.2.2 cronjobsGRS cronjobsV1 ResourceSyncStatusStop
      SynchroRemovedReason synchroMovedMessage cronjobsV1 cronjobsV1beta1 (by decide)).2⟩

/-- C3: on every refresh, each registered storage GVR absent from the
new plan has Close invoked; with an open closer the removal loop appends
per removed GVR, in order, the Close, the Stop/SynchroRemoved updates of
all mapped sync GVRs and the registry deletion, and the GVR ends up
absent from the registry; with a closed closer the refresh aborts right
after the first Close, leaving the registry untouched. -/
theorem C3_removed_synchros_closed (env : RefreshEnv) (s : SynchroState) (sr : Nat)
    (hsr : s.syncResources = some sr)
    (hnd : (keysA (refreshAcc1 env s sr).registry).Nodup) :
    (s.closerClosed = false →
      (∃ rest, (refreshSyncResources env s).2 =
        (refreshAcc1 env s sr).trace ++
          ((refreshRemoved env s sr).map (removalSegment (refreshFan env s sr))).flatten ++
          rest) ∧
      (∀ g ∈ refreshRemoved env s sr,
        lookupA (refreshSyncResources env s).1.storageResourceSynchros g = none)) ∧
    (s.closerClosed = true →
      ∀ g t, refreshRemoved env s sr = g :: t →
        (refreshSyncResources env s).2 =
          (refreshAcc1 env s sr).trace ++ [RefreshEffect.closeInvoked g] ∧
        (refreshSyncResources env s).1.storageResourceSynchros =
          (refreshAcc1 env s sr).registry) := by
  have hab1 : (refreshAcc1 env s sr).aborted = false :=
    (createFold_aborted_deleted env (refreshFan env s sr) s.handlerLive
      (refreshPlan env sr) (refreshAcc0 env s sr)).1
  have hndR : (refreshRemoved env s sr).Nodup := hnd.filter _
  have hpres : ∀ g ∈ refreshRemoved env s sr,
      (lookupA (refreshAcc1 env s sr).registry g).isSome = true := by
    intro g hg
    exact (lookupA_isSome_iff_mem_keysA _ g).mpr (List.mem_of_mem_filter hg)
  constructor
  · intro hc
    have h2eq : refreshAcc2 env s sr =
        (refreshRemoved env s sr).foldl
          (removeStep false (refreshFan env s sr)) (refreshAcc1 env s sr) := by
      simp only [refreshAcc2, hc]
    have htrace2 : (refreshAcc2 env s sr).trace =
        (refreshAcc1 env s sr).trace ++
          ((refreshRemoved env s sr).map (removalSegment (refreshFan env s sr))).flatten := by
      rw [h2eq]
      exact removeFold_trace (refreshFan env s sr) (refreshRemoved env s sr)
        (refreshAcc1 env s sr) hndR hab1 hpres
    have hab2 : (refreshAcc2 env s sr).aborted = false := by
      rw [h2eq]
      exact removeFold_aborted_false (refreshFan env s sr) (refreshRemoved env s sr)
        (refreshAcc1 env s sr) hab1
    have hab2' : ¬ (refreshAcc2 env s sr).aborted = true := by simp [hab2]
    have heq : refreshSyncResources env s =
        ({ s with
            groupResourceStatus :=
              some ((refreshAcc3 env s sr).deleted.foldl deleteVersion
                (refreshAcc3 env s sr).grs)
            storageResourceSynchros := (refreshAcc3 env s sr).registry
            storageResourceVersions := (refreshAcc3 env s sr).rvs },
          (refreshAcc3 env s sr).trace) := by
      simp [refreshSyncResources, hsr, hab2', refreshAcc3]
    obtain ⟨rest, hrest⟩ := cleanFold_trace_extends env (refreshFan env s sr)
      (refreshPlan env sr) (keysA (refreshAcc2 env s sr).rvs) (refreshAcc2 env s sr)
    have hreg3 := cleanFold_registry env (refreshFan env s sr) (refreshPlan env sr)
      (keysA (refreshAcc2 env s sr).rvs) (refreshAcc2 env s sr)
    constructor
    · refine ⟨rest, ?_⟩
      rw [heq]
      show (refreshAcc3 env s sr).trace = _
      rw [show (refreshAcc3 env s sr).trace = (refreshAcc2 env s sr).trace ++ rest from hrest,
        htrace2]
    · intro g hg
      rw [heq]
      show lookupA (refreshAcc3 env s sr).registry g = none
      rw [show (refreshAcc3 env s sr).registry = (refreshAcc2 env s sr).registry from hreg3.1]
      rcases removeFold_erased_or_aborted false (refreshFan env s sr)
        (refreshRemoved env s sr) (refreshAcc1 env s sr) with habt | herased
      · rw [← h2eq] at habt
        exact absurd habt hab2'
      · rw [h2eq]
        exact herased g hg
  · intro hc g t hremoved
    obtain ⟨syn, hl⟩ := Option.isSome_iff_exists.mp
      (hpres g (hremoved ▸ List.mem_cons_self g t))
    have h2eq : refreshAcc2 env s sr =
        (g :: t).foldl (removeStep true (refreshFan env s sr)) (refreshAcc1 env s sr) := by
      simp only [refreshAcc2, hc, hremoved]
    have hstep := removeStep_abort (refreshFan env s sr) (refreshAcc1 env s sr) g hab1 syn hl
    have h2val : refreshAcc2 env s sr =
        { refreshAcc1 env s sr with
            trace := (refreshAcc1 env s sr).trace ++ [RefreshEffect.closeInvoked g]
            aborted := true } := by
      rw [h2eq]
      show t.foldl (removeStep true (refreshFan env s sr))
        (removeStep true (refreshFan env s sr) (refreshAcc1 env s sr) g) = _
      rw [hstep]
      exact removeFold_aborted_noop true (refreshFan env s sr) t _ rfl
    have hab2 : (refreshAcc2 env s sr).aborted = true := by rw [h2val]
    have heq : refreshSyncResources env s =
        ({ s with
            groupResourceStatus := some (refreshAcc2 env s sr).grs
            storageResourceSynchros := (refreshAcc2 env s sr).registry
            storageResourceVersions := (refreshAcc2 env s sr).rvs },
          (refreshAcc2 env s sr).trace) := by
      simp [refreshSyncResources, hsr, hab2]
    rw [heq]
    constructor
    · show (refreshAcc2 env s sr).trace = _
      rw [h2val]
    · show (refreshAcc2 env s sr).registry = _
      rw [h2val]

/-- A condition mapping deployments onto the deployments storage GVR. -/
def sampleDeploymentsCondition : SyncCondition :=
  { storageGVR := deploymentsGVR
    status := ResourceSyncStatusSyncing
    reason := emptyString
    message := emptyString }

/-- A state with deployments registered, tracked in the watermarks, and
carried in the previous group resource status. -/
def stateDeploymentsRegistered : SynchroState :=
  { initialStateSample with
      syncResources := some 1
      groupResourceStatus := some [(deploymentsGVR, sampleDeploymentsCondition)]
      storageResourceSynchros := [(deploymentsGVR, { id := 7, syncResource := deploymentsGVR })]
      storageResourceVersions := [(deploymentsGVR, emptyRVS)] }

/-- Witness for C3: deployments leaves the plan; its synchro is closed,
its conditions are stopped, and the registry entry is erased. -/
theorem C3_removed_synchros_closed_witness :
    (∃ rest, (refreshSyncResources refreshEnvPodsPlan stateDeploymentsRegistered).2 =
      (refreshAcc1 refreshEnvPodsPlan stateDeploymentsRegistered 1).trace ++
        ((refreshRemoved refreshEnvPodsPlan stateDeploymentsRegistered 1).map
          (removalSegment (refreshFan refreshEnvPodsPlan stateDeploymentsRegistered 1))).flatten ++
        rest) ∧
    (∀ g ∈ refreshRemoved refreshEnvPodsPlan stateDeploymentsRegistered 1,
      lookupA (refreshSyncResources refreshEnvPodsPlan
          stateDeploymentsRegistered).1.storageResourceSynchros g = none) :=
  (C3_removed_synchros_closed refreshEnvPodsPlan stateDeploymentsRegistered 1 rfl
    (by decide)).1 rfl

/-- C4: on a refresh that reaches the cleanup loop, every watermark key
absent from the new plan is deleted from the in-memory map whatever
CleanClusterResource returns, and the clean is invoked for it; on a
clean failure all mapped sync GVRs are marked Stop/CleanResourceFailed
and dropped from the deleted set, so the final status deletion leaves
their entries untouched; on success a cleanup step records nothing
beyond the erase and the invocation. -/
theorem C4_clean_unstoraged_resources (env : RefreshEnv) (s : SynchroState) (sr : Nat)
    (hsr : s.syncResources = some sr)
    (hab : (refreshAcc2 env s sr).aborted = false) :
    (∀ g ∈ keysA (refreshAcc2 env s sr).rvs,
      lookupA (refreshPlan env sr) g = none →
      lookupA (refreshSyncResources env s).1.storageResourceVersions g = none ∧
      RefreshEffect.cleanInvoked g (env.cleanClusterResource g).isNone ∈
        (refreshSyncResources env s).2) ∧
    (∀ g ∈ keysA (refreshAcc2 env s sr).rvs,
      lookupA (refreshPlan env sr) g = none →
      ∀ err, env.cleanClusterResource g = some err →
      (refreshSyncResources env s).1.groupResourceStatus =
        some ((refreshAcc3 env s sr).deleted.foldl deleteVersion (refreshAcc3 env s sr).grs) ∧
      ∀ gvr ∈ refreshFan env s sr g,
        RefreshEffect.condUpdated gvr ResourceSyncStatusStop CleanResourceFailedReason ∈
          (refreshSyncResources env s).2 ∧
        gvr ∉ (refreshAcc3 env s sr).deleted ∧
        lookupA ((refreshAcc3 env s sr).deleted.foldl deleteVersion (refreshAcc3 env s sr).grs)
            gvr = lookupA (refreshAcc3 env s sr).grs gvr) ∧
    (∀ (fan : GVR → List GVR) (plan : List (GVR × ResourceSyncConfig)) (acc : RefreshAcc)
        (g : GVR),
      lookupA plan g = none → env.cleanClusterResource g = none →
      cleanStep env fan plan acc g =
        { acc with
            rvs := eraseA acc.rvs g
            trace := acc.trace ++ [RefreshEffect.cleanInvoked g true] }) := by
  have hab' : ¬ (refreshAcc2 env s sr).aborted = true := by simp [hab]
  have heq : refreshSyncResources env s =
      ({ s with
          groupResourceStatus :=
            some ((refreshAcc3 env s sr).deleted.foldl deleteVersion
              (refreshAcc3 env s sr).grs)
          storageResourceSynchros := (refreshAcc3 env s sr).registry
          storageResourceVersions := (refreshAcc3 env s sr).rvs },
        (refreshAcc3 env s sr).trace) := by
    simp [refreshSyncResources, hsr, hab', refreshAcc3]
  refine ⟨?_, ?_, ?_⟩
  · intro g hg hp
    rw [heq]
    constructor
    · show lookupA (refreshAcc3 env s sr).rvs g = none
      exact cleanFold_erases env (refreshFan env s sr) (refreshPlan env sr)
        (keysA (refreshAcc2 env s sr).rvs) (refreshAcc2 env s sr) g hg hp
    · show RefreshEffect.cleanInvoked g (env.cleanClusterResource g).isNone ∈
        (refreshAcc3 env s sr).trace
      exact cleanFold_invoked env (refreshFan env s sr) (refreshPlan env sr)
        (keysA (refreshAcc2 env s sr).rvs) (refreshAcc2 env s sr) g hg hp
  · intro g hg hp err hc
    rw [heq]
    have heff := cleanFold_failure_effects env (refreshFan env s sr) (refreshPlan env sr)
      (keysA (refreshAcc2 env s sr).rvs) (refreshAcc2 env s sr) g err hg hp hc
    refine ⟨rfl, ?_⟩
    intro gvr hgvr
    have hnd : gvr ∉ (refreshAcc3 env s sr).deleted := heff.2 gvr hgvr
    refine ⟨heff.1 gvr hgvr, hnd, ?_⟩
    rw [lookupA_deleteVersionFold]
    simp [hnd]
  · intro fan plan acc g hp hc
    exact cleanStep_success env fan plan acc g hp hc

/-- An environment whose plan keeps pods and whose cleans always fail. -/
def refreshEnvPodsPlanCleanFail : RefreshEnv :=
  { refreshEnvPodsPlan with cleanClusterResource := fun _ => some sampleErrorMessage }

/-- Witness for C4: the deployments watermark entry is erased even
though the clean fails, and the deployments condition is kept, marked
Stop/CleanResourceFailed. -/
theorem C4_clean_unstoraged_resources_witness :
    (lookupA (refreshSyncResources refreshEnvPodsPlanCleanFail
        stateDeploymentsRegistered).1.storageResourceVersions deploymentsGVR = none ∧
      RefreshEffect.cleanInvoked deploymentsGVR false ∈
        (refreshSyncResources refreshEnvPodsPlanCleanFail stateDeploymentsRegistered).2) ∧
    (RefreshEffect.condUpdated deploymentsGVR ResourceSyncStatusStop
        CleanResourceFailedReason ∈
      (refreshSyncResources refreshEnvPodsPlanCleanFail stateDeploymentsRegistered).2) := by
  have h := C4_clean_unstoraged_resources refreshEnvPodsPlanCleanFail
    stateDeploymentsRegistered 1 rfl (by decide)
  have h1 := h.1 deploymentsGVR (by decide) (by decide)
  have h2 := (h.2.1 deploymentsGVR (by decide) (by decide) sampleErrorMessage rfl).2
    deploymentsGVR (by decide)
  exact ⟨⟨h1.1, h1.2⟩, h2.1⟩

end Clusterpedia
